import Mathlib

/-!
Verification of the qDSA digital-signature verifier (`qdsv.c`, `supp.c`)
over the Gaudry-Schost genus-2 Kummer surface.

The development shallowly embeds the C sources:

* Field elements of GF(2^127 - 1) are modelled as `ZMod (2^127 - 1)`.
  The primitive limb-level routines (`fe1271_add`, `fe1271_sub`, `fe1271_neg`,
  `fe1271_mulconst`, `fe1271_hdmrd`, `fe1271_freeze`, `bigint_mul`,
  `bigint_sqr`, `bigint_red`) live in `fe1271.inc`, which is not part of the
  supplied sources; they are modelled from the specification ("every operation
  ... produces an output whose value equals the mathematical result mod p"),
  so each is the exact field operation on values. The one non-obvious case is
  `fe1271_hdmrd` (see its doc comment); the model chosen is validated end to
  end by `sign_verify_instance` and `compress_decompress_instance` at the end
  of this file, which force a full sign/verify round trip through every
  component of the embedding.
* The scalar arithmetic (`large_add`, `large_mul`, `large_red`) works on
  512-bit little-endian word arrays; it is modelled on the natural number
  value of those arrays, each C statement transcribed as the corresponding
  exact operation on values (word stores become `/`, `%`, `*` by powers of 2,
  dropped carries become `% 2^512`).
* Kummer points are records of four field elements; byte strings are lists
  of naturals; the Bob Jr. sponge state is a list of 100 bytes.
-/

set_option autoImplicit false
set_option maxRecDepth 200000
set_option exponentiation.threshold 600

/-- The field characteristic p = 2^127 - 1 (the Mersenne prime M127). -/
abbrev pval : Nat := 2 ^ 127 - 1

/-- Field elements of GF(2^127 - 1), by value. -/
abbrev Fe : Type := ZMod pval

/-- p is prime, by the Lucas-Lehmer test for the Mersenne number M127. -/
instance fact_pval_prime : Fact (Nat.Prime pval) :=
  ⟨by have h := lucas_lehmer_sufficiency 127 (by norm_num) (by norm_num)
      simpa [mersenne] using h⟩

/-- Modelled from the spec: `fe1271_add` of the missing `fe1271.inc`
(value-accurate addition mod p). -/
def fe1271_add (x y : Fe) : Fe := x + y

/-- Modelled from the spec: `fe1271_sub` of the missing `fe1271.inc`
(value-accurate subtraction mod p). -/
def fe1271_sub (x y : Fe) : Fe := x - y

/-- Modelled from the spec: `fe1271_neg` of the missing `fe1271.inc`
(value-accurate negation mod p). -/
def fe1271_neg (x : Fe) : Fe := -x

/-- Modelled from the spec: `fe1271_mulconst` of the missing `fe1271.inc`
(multiplication by a 16-bit constant, value-accurate mod p). -/
def fe1271_mulconst (x : Fe) (c : Nat) : Fe := x * (c : Fe)

/-- `fe1271_mul` (qdsv.c:120): `bigint_mul` then `bigint_red`; the two
primitives are modelled from the spec, so the composite is the field
multiplication on values. -/
def fe1271_mul (x y : Fe) : Fe := x * y

/-- `fe1271_square` (qdsv.c:128): `bigint_sqr` then `bigint_red`,
modelled as the field squaring on values. -/
def fe1271_square (x : Fe) : Fe := x * x

/-- Modelled from the spec: `fe1271_freeze` of the missing `fe1271.inc`
produces the canonical representative in [0, p); on values it is the
identity (the canonical digits are read off through `ZMod.val`). -/
def fe1271_freeze (x : Fe) : Fe := x

/-- `set_const` (qdsv.c:187). -/
def set_const (c : Nat) : Fe := (c : Fe)

/-- `fe1271_zeroness` (qdsv.c:107): adds 1, freezes, flips the low bit of
byte 0 and ORs the four words; returns 0 if x = 0 mod p, else 1. -/
def fe1271_zeroness (x : Fe) : Nat :=
  if (fe1271_freeze (fe1271_add (set_const 1) x)).val ^^^ 1 = 0 then 0 else 1

/-- `fe1271_sum` (qdsv.c:193): c3*c4 + c1*c2 from four small constants. -/
def fe1271_sum (c1 c2 c3 c4 : Nat) : Fe :=
  fe1271_add (fe1271_mulconst (set_const c3) c4) (fe1271_mulconst (set_const c1) c2)

/-- A run of k `fe1271_square` calls (the for-loops inside
`fe1271_powminhalf`, qdsv.c:150-169). -/
def nsquare : Nat → Fe → Fe
  | 0, x => x
  | k + 1, x => nsquare k (fe1271_square x)

/-- `fe1271_powminhalf` (qdsv.c:136): the fixed 11-multiplication /
125-squaring addition chain. -/
def fe1271_powminhalf (x : Fe) : Fe :=
  let x2 := fe1271_square x
  let x3 := fe1271_mul x2 x
  let x6 := fe1271_square x3
  let x6 := fe1271_square x6
  let x3 := fe1271_mul x6 x3
  let x6 := fe1271_square x3
  let x6 := fe1271_mul x6 x
  let r := fe1271_square x6
  let r := nsquare 4 r
  let x6 := fe1271_mul r x6
  let r := fe1271_square x6
  let r := nsquare 9 r
  let x6 := fe1271_mul r x6
  let r := fe1271_square x6
  let r := nsquare 19 r
  let x6 := fe1271_mul r x6
  let r := fe1271_square x6
  let r := nsquare 39 r
  let r := fe1271_mul r x6
  let r := nsquare 40 r
  let r := fe1271_mul r x6
  let r := nsquare 4 r
  let r := fe1271_mul r x3
  let r := fe1271_square r
  let x6f := fe1271_mul r x2
  let x6f := fe1271_square x6f
  fe1271_mul r x6f

/-- `fe1271_invert` (qdsv.c:177): x^(p-2) via square, powminhalf and two
multiplications. -/
def fe1271_invert (x : Fe) : Fe :=
  let r := fe1271_square x
  let r := fe1271_powminhalf r
  let t := fe1271_mul r x
  fe1271_mul r t

/-- `fe1271_has_sqrt` (qdsv.c:213). Returns the flag (0 = delta is a
square), the written candidate root R (with the requested sign on
success), and the final value of the scratch t. -/
def fe1271_has_sqrt (delta : Fe) (sigma : Nat) : Nat × Fe × Fe :=
  let R := fe1271_powminhalf delta
  let R := fe1271_mul R delta
  let t := fe1271_square R
  let t := fe1271_sub t delta
  if fe1271_zeroness t ≠ 0 then (1, R, t)
  else
    let R := fe1271_freeze R
    let R := if (R.val &&& 1) ^^^ sigma ≠ 0 then fe1271_neg R else R
    (0, R, t)

/- ----------------------------------------------------------------------
Kummer points and four-wide helpers.
---------------------------------------------------------------------- -/

/-- Kummer-surface point, four field elements (qdsv.c:78). -/
structure kpoint where
  X : Fe
  Y : Fe
  Z : Fe
  T : Fe
deriving DecidableEq

/-- The all-zero kpoint, standing for zero-initialised local scratch. -/
def zeroK : kpoint := ⟨0, 0, 0, 0⟩

/-- Modelled from the spec: `fe1271_hdmrd` of the missing `fe1271.inc`.
The spec describes "Hadamard" as (a,b,c,d) -> (a+b+c+d, a+b-c-d,
a-b+c-d, a-b-c+d); that pattern is the documented output of `fe1271_H`
(qdsv.c:747-756), which computes negate-slot-0, `fe1271_hdmrd`,
negate-slot-3.  The raw `fe1271_hdmrd` is therefore the conjugate of the
plain Hadamard by those negations: (a,b,c,d) ->
(-a+b+c+d, -a+b-c-d, -a-b+c-d, a+b+c-d).  This is the variant that
absorbs the ladder's negated-first-coordinate convention (qdsv.c:345-357),
and with it the composite `fe1271_H` matches both its own documentation
and the spec's Hadamard. -/
def fe1271_hdmrd (k : kpoint) : kpoint :=
  ⟨fe1271_add (fe1271_sub k.Y k.X) (fe1271_add k.Z k.T),
   fe1271_sub (fe1271_sub k.Y k.X) (fe1271_add k.Z k.T),
   fe1271_sub (fe1271_sub k.Z k.T) (fe1271_add k.X k.Y),
   fe1271_add (fe1271_add k.X k.Y) (fe1271_sub k.Z k.T)⟩

/-- `mul4_const` (qdsv.c:310). -/
def mul4_const (xq : kpoint) (cons : List Nat) : kpoint :=
  ⟨fe1271_mulconst xq.X (cons.getD 0 0), fe1271_mulconst xq.Y (cons.getD 1 0),
   fe1271_mulconst xq.Z (cons.getD 2 0), fe1271_mulconst xq.T (cons.getD 3 0)⟩

/-- `mul4` (qdsv.c:327). -/
def mul4 (xq xp : kpoint) : kpoint :=
  ⟨fe1271_mul xq.X xp.X, fe1271_mul xq.Y xp.Y,
   fe1271_mul xq.Z xp.Z, fe1271_mul xq.T xp.T⟩

/-- `sqr4` (qdsv.c:343). -/
def sqr4 (xp : kpoint) : kpoint :=
  ⟨fe1271_square xp.X, fe1271_square xp.Y, fe1271_square xp.Z, fe1271_square xp.T⟩

/-- `ehat` (qdsv.c:351). -/
def ehat : List Nat := [0x341, 0x9C3, 0x651, 0x231]

/-- `e_cons` (qdsv.c:370). -/
def e_cons : List Nat := [0x72, 0x39, 0x42, 0x1a2]

/-- `xDBLADD` (qdsv.c:368): simultaneous differential double of xp and
pseudo-add of (xp, xq) given the wrapped difference xd. Returns the new
(xp, xq). -/
def xDBLADD (xp xq xd : kpoint) : kpoint × kpoint :=
  let xq := fe1271_hdmrd xq
  let xp := fe1271_hdmrd xp
  let xq := mul4 xq xp
  let xp := sqr4 xp
  let xq := mul4_const xq ehat
  let xp := mul4_const xp ehat
  let xq := fe1271_hdmrd xq
  let xp := fe1271_hdmrd xp
  let xq := sqr4 xq
  let xp := sqr4 xp
  let xq := { xq with Y := fe1271_mul xq.Y xd.Y, Z := fe1271_mul xq.Z xd.Z,
                      T := fe1271_mul xq.T xd.T }
  let xp := mul4_const xp e_cons
  (xp, xq)

/-- `xUNWRAP` (qdsv.c:398). -/
def xUNWRAP (xpw : kpoint) : kpoint :=
  let t := fe1271_mul xpw.Y xpw.Z
  let z := fe1271_mul xpw.Y xpw.T
  let y := fe1271_mul xpw.Z xpw.T
  let x := fe1271_mul t xpw.T
  ⟨x, y, z, t⟩

/-- `xWRAP` (qdsv.c:414). The X slot of a wrapped point carries no
information and is never read; it is set to 0 here. -/
def xWRAP (xp : kpoint) : kpoint :=
  let w0 := fe1271_mul xp.Y xp.Z
  let w1 := fe1271_mul w0 xp.T
  let w2 := fe1271_invert w1
  let w2 := fe1271_mul w2 xp.X
  let w3 := fe1271_mul w2 xp.T
  ⟨0, fe1271_mul w3 xp.Z, fe1271_mul w3 xp.Y, fe1271_mul w0 w2⟩

/-- Theta constants mu_1 .. mu_4 (qdsv.c:428). -/
def mu_1 : Nat := 0x0b
def mu_2 : Nat := 0x16
def mu_3 : Nat := 0x13
def mu_4 : Nat := 0x03

/- ----------------------------------------------------------------------
Conditional swaps and the Montgomery ladder (both compile-time variants).
---------------------------------------------------------------------- -/

/-- Word i (32-bit little-endian limb) of a natural number. -/
def wordOf (v : Nat) (i : Nat) : Nat := v / 2 ^ (32 * i) % 2 ^ 32

/-- One word of the XOR-masked swap inside `ct_swap` (qdsv.c:441-446):
t = (X ^ Y) & mask; X ^= t; Y ^= t. -/
def maskSwapWord (a c m : Nat) : Nat × Nat :=
  let t := (a ^^^ c) &&& m
  (a ^^^ t, c ^^^ t)

/-- The XOR-masked swap of `ct_swap` applied to the four words of a pair
of field elements. -/
def ctSwapFe (x y : Fe) (m : Nat) : Fe × Fe :=
  let w := fun i => maskSwapWord (wordOf x.val i) (wordOf y.val i) m
  (((w 0).1 + (w 1).1 * 2 ^ 32 + (w 2).1 * 2 ^ 64 + (w 3).1 * 2 ^ 96 : Nat),
   ((w 0).2 + (w 1).2 * 2 ^ 32 + (w 2).2 * 2 ^ 64 + (w 3).2 * 2 ^ 96 : Nat))

/-- `ct_swap` (qdsv.c:435, CONF_QDSA_FULL compile): data-oblivious
conditional swap of two kpoints; b = -b produces the 32-bit all-ones or
all-zero mask. -/
def ct_swap (x y : kpoint) (b : Nat) : kpoint × kpoint :=
  let m := (2 ^ 32 - b % 2 ^ 32) % 2 ^ 32
  let sX := ctSwapFe x.X y.X m
  let sY := ctSwapFe x.Y y.Y m
  let sZ := ctSwapFe x.Z y.Z m
  let sT := ctSwapFe x.T y.T m
  (⟨sX.1, sY.1, sZ.1, sT.1⟩, ⟨sX.2, sY.2, sZ.2, sT.2⟩)

/-- `wam_swap` (supp.c:667) on two whole kpoints (64 aligned bytes):
exchanges the two blocks. -/
def wam_swap (x y : kpoint) : kpoint × kpoint := (y, x)

/-- The ladder initialisation (qdsv.c:471-475): zero the point and put
the theta constants in the low words. -/
def ladder_init : kpoint := ⟨(mu_1 : Fe), (mu_2 : Fe), (mu_3 : Fe), (mu_4 : Fe)⟩

/-- Loop body state of `ladder_250` (qdsv.c:477-489), verifier-only
compile: the swap is a branch on `swap` calling `wam_swap`. The fuel
argument counts the remaining iterations; iteration with fuel f+1
processes bit index f of the scalar (the loop runs i = 250 down to 0,
so it is entered with fuel 251). Returns (xp, xq, last bit). -/
def ladder_loop : Nat → kpoint → kpoint → kpoint → Nat → Nat → kpoint × kpoint × Nat
  | 0, xp, xq, _, _, prevbit => (xp, xq, prevbit)
  | i + 1, xp, xq, xd, n, prevbit =>
    let bit := if n.testBit i then 1 else 0
    let swap := bit ^^^ prevbit
    let xq := { xq with X := fe1271_neg xq.X }
    let s := if swap ≠ 0 then wam_swap xp xq else (xp, xq)
    let d := xDBLADD s.1 s.2 xd
    ladder_loop i d.1 d.2 xd n bit

/-- Loop body of `ladder_250`, CONF_QDSA_FULL compile: the swap is the
constant-time `ct_swap`. -/
def ladder_loop_full : Nat → kpoint → kpoint → kpoint → Nat → Nat → kpoint × kpoint × Nat
  | 0, xp, xq, _, _, prevbit => (xp, xq, prevbit)
  | i + 1, xp, xq, xd, n, prevbit =>
    let bit := if n.testBit i then 1 else 0
    let swap := bit ^^^ prevbit
    let xq := { xq with X := fe1271_neg xq.X }
    let s := ct_swap xp xq swap
    let d := xDBLADD s.1 s.2 xd
    ladder_loop_full i d.1 d.2 xd n bit

/-- `ladder_250` (qdsv.c:466), verifier-only compile. Returns
(xp, xq) = (n*xq, (n+1)*xq). -/
def ladder_250 (xq xd : kpoint) (n : Nat) : kpoint × kpoint :=
  let l := ladder_loop 251 ladder_init xq xd n 0
  let xp := { l.1 with X := fe1271_neg l.1.X }
  if l.2.2 ≠ 0 then wam_swap xp l.2.1 else (xp, l.2.1)

/-- `ladder_250`, CONF_QDSA_FULL compile (constant-time swaps). -/
def ladder_250_full (xq xd : kpoint) (n : Nat) : kpoint × kpoint :=
  let l := ladder_loop_full 251 ladder_init xq xd n 0
  let xp := { l.1 with X := fe1271_neg l.1.X }
  ct_swap xp l.2.1 l.2.2

/-- The hard-coded wrapped base point `bpw` (qdsv.c:503). -/
def bpw : kpoint :=
  ⟨0,
   ((0x4e931a48 + 0xaeb351a6 * 2 ^ 32 + 0x2049c2e7 * 2 ^ 64 + 0x1be0c3dc * 2 ^ 96 : Nat) : Fe),
   ((0xe07e36df + 0x64659818 * 2 ^ 32 + 0x8eaba630 * 2 ^ 64 + 0x23b416cd * 2 ^ 96 : Nat) : Fe),
   ((0x7215441e + 0xc7ae3d05 * 2 ^ 32 + 0x4447a24d * 2 ^ 64 + 0x5db35c38 * 2 ^ 96 : Nat) : Fe)⟩

/-- `ladder_base_250` (qdsv.c:500). -/
def ladder_base_250 (n : Nat) : kpoint :=
  (ladder_250 (xUNWRAP bpw) bpw n).1

/- ----------------------------------------------------------------------
Rosenhain polynomials K2, K3, K4 and decompression.

The C helpers write into caller-supplied scratch slots that alias the
output point; failure paths of `decompress` return with those scratch
values still in place, so each helper also returns the final value of
every scratch slot it may write (and takes the incoming value of a slot
it might leave untouched).
---------------------------------------------------------------------- -/

def q0 : Nat := 0xDF7
def q1 : Nat := 0x2599
def q2 : Nat := 0x1211
def q3 : Nat := 0x2FE3
def q4 : Nat := 0x2C0B
def q5 : Nat := 0x1D33
def q6 : Nat := 0x1779
def q7 : Nat := 0xABD7

/-- `get_k2` (qdsv.c:534). Returns (K2, final scratch t). -/
def get_k2 (l1 l2 : Fe) (tau : Nat) : Fe × Fe :=
  let r := fe1271_mulconst l1 q2
  let r := fe1271_mul l2 r
  let r :=
    if tau ≠ 0 then
      let t := fe1271_mulconst l1 q0
      let r := fe1271_add r t
      let t := fe1271_mulconst l2 q1
      fe1271_sub r t
    else r
  let r := fe1271_mulconst r q3
  let r := fe1271_add r r
  let t := fe1271_mulconst l1 q5
  let t := fe1271_square t
  let r := fe1271_sub t r
  let t := fe1271_mulconst l2 q3
  let t := fe1271_square t
  let r := fe1271_add t r
  if tau ≠ 0 then
    let t := set_const q4
    let t := fe1271_square t
    (fe1271_add t r, t)
  else (r, t)

/-- `get_k3` (qdsv.c:570). Returns (K3, final t0, final t1); `t1i` is the
incoming value of the t1 slot, which is left untouched when tau = 0. -/
def get_k3 (l1 l2 : Fe) (tau : Nat) (t1i : Fe) : Fe × Fe × Fe :=
  let r := fe1271_square l1
  let t0 := fe1271_square l2
  let s :=
    if tau ≠ 0 then
      let t1 := set_const 1
      let r := fe1271_add r t1
      let t0 := fe1271_add t0 t1
      let t1 := fe1271_add r t0
      (r, t0, t1)
    else (r, t0, t1i)
  let r := s.1
  let t0 := s.2.1
  let t1 := s.2.2
  let r := fe1271_mul r l2
  let r := fe1271_mulconst r q0
  let t0 := fe1271_mul t0 l1
  let t0 := fe1271_mulconst t0 q1
  let r := fe1271_sub r t0
  let s2 :=
    if tau ≠ 0 then
      let t0 := set_const 1
      let t1 := fe1271_sub t1 t0
      let t1 := fe1271_sub t1 t0
      let t1 := fe1271_mulconst t1 q2
      let r := fe1271_add r t1
      (r, t0, t1)
    else (r, t0, t1)
  let r := s2.1
  let t0 := s2.2.1
  let t1 := s2.2.2
  let r := fe1271_mulconst r q3
  if tau ≠ 0 then
    let t0 := fe1271_mul l1 l2
    let t0 := fe1271_mulconst t0 q6
    let t0 := fe1271_mulconst t0 q7
    let r := fe1271_sub r t0
    (r, t0, t1)
  else (r, t0, t1)

/-- `get_k4` (qdsv.c:613). Returns (K4, final scratch t); `ti` is the
incoming value of the t slot, untouched when tau = 0. -/
def get_k4 (l1 l2 : Fe) (tau : Nat) (ti : Fe) : Fe × Fe :=
  let t :=
    if tau ≠ 0 then
      let t := fe1271_mulconst l2 q0
      let r := fe1271_mulconst l1 q1
      let t := fe1271_sub t r
      let r := set_const q2
      let t := fe1271_add t r
      let t := fe1271_mul t l1
      let t := fe1271_mul t l2
      let t := fe1271_mulconst t q3
      let t := fe1271_add t t
      let r := fe1271_mulconst l1 q3
      let r := fe1271_square r
      let t := fe1271_sub r t
      let r := fe1271_mulconst l2 q5
      let r := fe1271_square r
      fe1271_add r t
    else ti
  let r := fe1271_mulconst l1 q4
  let r := fe1271_mul r l2
  let r := fe1271_square r
  if tau ≠ 0 then (fe1271_add r t, t) else (r, t)

/-- `T_inv_row` (qdsv.c:641): mu_1*(2*X2 - X1) + mu_3*X3 + mu_4*X4. -/
def T_inv_row (x1 x2 x3 x4 : Fe) : Fe :=
  let r := fe1271_add x2 x2
  let r := fe1271_sub r x1
  let r := fe1271_mulconst r mu_1
  let t := fe1271_mulconst x3 mu_3
  let r := fe1271_add r t
  let t := fe1271_mulconst x4 mu_4
  fe1271_add r t

/-- `T_inv` (qdsv.c:666): the inverse theta transform. -/
def T_inv (x : kpoint) : kpoint :=
  ⟨T_inv_row x.T x.Z x.Y x.X,
   T_inv_row x.Z x.T x.X x.Y,
   T_inv_row x.Y x.X x.T x.Z,
   T_inv_row x.X x.Y x.Z x.T⟩

/-- Result of `decompress`: the 0/1 flag and the final contents of the
caller's two kpoints r (the output point) and t (scratch). -/
structure DecompRes where
  flag : Nat
  r : kpoint
  t : kpoint
deriving DecidableEq

/-- `decompress` (qdsv.c:683). `x1`, `x2` are the raw little-endian
values of the two 16-byte halves of the compressed point; `r0`, `t0` are
the incoming contents of the output and scratch kpoints (visible in the
result exactly where the C function leaves a slot unwritten). -/
def decompress (r0 t0 : kpoint) (x1 x2 : Nat) : DecompRes :=
  let tau := ((x1 >>> 120) &&& 0x80) >>> 7
  let sigma := ((x2 >>> 120) &&& 0x80) >>> 7
  let l1 : Fe := ((x1 % 2 ^ 120 + ((x1 >>> 120) &&& 0x7f) * 2 ^ 120 : Nat) : Fe)
  let l2 : Fe := ((x2 % 2 ^ 120 + ((x2 >>> 120) &&& 0x7f) * 2 ^ 120 : Nat) : Fe)
  let g2 := get_k2 l1 l2 tau
  let k2 := g2.1
  let g3 := get_k3 l1 l2 tau r0.T
  let k3 := g3.1
  let g4 := get_k4 l1 l2 tau g3.2.1
  let k4 := g4.1
  if fe1271_zeroness k2 = 0 then
    let k3 := fe1271_freeze k3
    if fe1271_zeroness k3 = 0 then
      if fe1271_zeroness l1 ||| fe1271_zeroness l2 ||| tau ||| sigma ≠ 0 then
        ⟨1, ⟨l1, l2, g4.2, g3.2.2⟩, ⟨t0.X, k2, k3, k4⟩⟩
      else
        let t : kpoint := ⟨0, 0, 0, set_const 1⟩
        ⟨0, T_inv t, t⟩
    else if sigma ^^^ (k3.val % 256) ≠ 0 then
      let tX := fe1271_mul k3 l1
      let tX := fe1271_add tX tX
      let tY := fe1271_mul k3 l2
      let tY := fe1271_add tY tY
      let tZ := if tau ≠ 0 then fe1271_add k3 k3 else 0
      let t : kpoint := ⟨tX, tY, tZ, k4⟩
      ⟨0, T_inv t, t⟩
    else
      ⟨1, ⟨l1, l2, g4.2, g3.2.2⟩, ⟨t0.X, k2, k3, k4⟩⟩
  else
    let dlt := fe1271_sub (fe1271_square k3) (fe1271_mul k2 k4)
    let hs := fe1271_has_sqrt dlt sigma
    if hs.1 ≠ 0 then
      ⟨1, ⟨l1, l2, dlt, hs.2.1⟩, ⟨hs.2.2, k2, k3, k4⟩⟩
    else
      let tT := fe1271_add k3 hs.2.1
      let tZ := if tau ≠ 0 then k2 else 0
      let tX := fe1271_mul k2 l1
      let tY := fe1271_mul k2 l2
      let t : kpoint := ⟨tX, tY, tZ, tT⟩
      ⟨0, T_inv t, t⟩

/- ----------------------------------------------------------------------
Scalar arithmetic modulo the group order N (512-bit word buffers,
modelled on the little-endian value of the 16-word array).
---------------------------------------------------------------------- -/

/-- The folding constant `L` = 2^250 mod N (qdsv.c:274), as the value of
its eight little-endian words. -/
def Lval : Nat :=
  0x840C05BD + 0x47730B4B * 2 ^ 32 + 0xF9A154FF * 2 ^ 64 + 0xD2C27FC9 * 2 ^ 96 +
  0x20C75294 * 2 ^ 128 + 0x334D698 * 2 ^ 160

/-- The folding constant `L6` = 2^256 mod N (qdsv.c:276). -/
def L6val : Nat :=
  0x3016F40 + 0xDCC2D2E1 * 2 ^ 32 + 0x68553FD1 * 2 ^ 64 + 0xB09FF27E * 2 ^ 96 +
  0x31D4A534 * 2 ^ 128 + 0xCD35A608 * 2 ^ 160

/-- The group order `N` (qdsv.c:1027), as the value of its eight words. -/
def Nval : Nat :=
  0x7BF3FA43 + 0xB88CF4B4 * 2 ^ 32 + 0x65EAB00 * 2 ^ 64 + 0x2D3D8036 * 2 ^ 96 +
  0xDF38AD6B * 2 ^ 128 + 0xFCCB2967 * 2 ^ 160 + 0xFFFFFFFF * 2 ^ 192 + 0x3FFFFFF * 2 ^ 224

/-- `large_add` (qdsv.c:234): add the low eight words of y into x at word
offset os, propagating carries through word 15 and dropping the final
carry (the value wraps modulo 2^512). -/
def large_add (x y : Nat) (os : Nat) : Nat :=
  (x + y % 2 ^ 256 * 2 ^ (32 * os)) % 2 ^ 512

/-- Modelled from the spec: `bigint_mul` of the missing assembly, the
exact 128x128 -> 256-bit product of the low four words of each operand. -/
def bigint_mul (x y : Nat) : Nat := x % 2 ^ 128 * (y % 2 ^ 128)

/-- `large_mul` (qdsv.c:257): 256x256 -> 512-bit product from four
`bigint_mul` sub-products and three offset additions (the upper half of
the result buffer is zeroed first). -/
def large_mul (x y : Nat) : Nat :=
  let r := bigint_mul x y
  let r := large_add r (bigint_mul x (y / 2 ^ 128)) 4
  let r := large_add r (bigint_mul (x / 2 ^ 128) y) 4
  large_add r (bigint_mul (x / 2 ^ 128) (y / 2 ^ 128)) 8

/-- One iteration of the L6 folding loop in `large_red` (qdsv.c:282-286):
temp = r_high * L6; copy temp's high half over r's high half; add temp's
low half into r. -/
def redstep_L6 (r : Nat) : Nat :=
  let temp := large_mul (r / 2 ^ 256) L6val
  let r := r % 2 ^ 256 + temp / 2 ^ 256 * 2 ^ 256
  large_add r temp 0

/-- The shift pair `r[8] = (r[8] << 6) | ((r[7] & 0xfc000000) >> 26);
r[7] &= 0x03ffffff` (qdsv.c:288-289), on the value of the buffer. -/
def redshift_6 (r : Nat) : Nat :=
  let r7 := r / 2 ^ 224 % 2 ^ 32
  let r8 := r / 2 ^ 256 % 2 ^ 32
  let r8n := (r8 <<< 6) % 2 ^ 32 ||| ((r7 &&& 0xfc000000) >>> 26)
  let r7n := r7 &&& 0x03ffffff
  r % 2 ^ 224 + r7n * 2 ^ 224 + r8n * 2 ^ 256 + r / 2 ^ 288 % 2 ^ 224 * 2 ^ 288

/-- The L folding step (qdsv.c:290-292), same shape as `redstep_L6`. -/
def redstep_L (r : Nat) : Nat :=
  let temp := large_mul (r / 2 ^ 256) Lval
  let r := r % 2 ^ 256 + temp / 2 ^ 256 * 2 ^ 256
  large_add r temp 0

/-- The shift pair `r[8] = (r[7] & 0x04000000) >> 26; r[7] &= 0x03ffffff`
(qdsv.c:293-294). -/
def redshift_1 (r : Nat) : Nat :=
  let r7 := r / 2 ^ 224 % 2 ^ 32
  let r8n := (r7 &&& 0x04000000) >>> 26
  let r7n := r7 &&& 0x03ffffff
  r % 2 ^ 224 + r7n * 2 ^ 224 + r8n * 2 ^ 256 + r / 2 ^ 288 % 2 ^ 224 * 2 ^ 288

/-- The last fold of `large_red` (qdsv.c:295-297): temp = r_high * L;
r[8] = 0; add temp's low half into r. -/
def redstep_last (r : Nat) : Nat :=
  let temp := large_mul (r / 2 ^ 256) Lval
  let r := r % 2 ^ 256 + r / 2 ^ 288 % 2 ^ 224 * 2 ^ 288
  large_add r temp 0

/-- `large_red` (qdsv.c:272): 512-bit to 250-bit reduction modulo N, four
L6 folds, then two L folds at bit offset 250; the result is the low
eight words of the buffer. -/
def large_red (x : Nat) : Nat :=
  let r := redstep_L6 (redstep_L6 (redstep_L6 (redstep_L6 x)))
  let r := redshift_6 r
  let r := redstep_L r
  let r := redshift_1 r
  let r := redstep_last r
  r % 2 ^ 256

/-- `scalar_get32` (qdsv.c:986): zero-extend a 32-byte value to 64 bytes
and reduce. -/
def scalar_get32 (x : Nat) : Nat := large_red (x % 2 ^ 256)

/-- `large_neg` (qdsv.c:1025): N - x over eight words (the borrow out of
the top word is dropped, i.e. the value wraps modulo 2^256). -/
def large_neg (x : Nat) : Nat := (2 ^ 256 + Nval - x % 2 ^ 256) % 2 ^ 256

/- ----------------------------------------------------------------------
Bob Jr. sponge over Keccak-f[800] (supp.c).
---------------------------------------------------------------------- -/

/-- 32-bit left rotation, `ROL` (supp.c:306). -/
def rol32 (x n : Nat) : Nat := ((x <<< n) % 2 ^ 32) ||| (x >>> (32 - n))

/-- The ten round constants used by the 10-round configuration
(supp.c:320-321). -/
def kf800_rcs : List Nat :=
  [0x8000808b, 0x0000008b, 0x00008089, 0x00008003, 0x00008002,
   0x00000080, 0x0000800a, 0x8000000a, 0x80008081, 0x00008080]

/-- One round of Keccak-f[800] (supp.c:329-442): Theta, combined Rho/Pi,
Chi, Iota, on 25 words. -/
def kf800_round (A : List Nat) (rc : Nat) : List Nat :=
  let a := fun i => A.getD i 0
  let c := fun x => a x ^^^ a (5 + x) ^^^ a (10 + x) ^^^ a (15 + x) ^^^ a (20 + x)
  let d := fun x => c ((x + 4) % 5) ^^^ rol32 (c ((x + 1) % 5)) 1
  let t := fun i => a i ^^^ d (i % 5)
  let b := fun i => [t 0, rol32 (t 6) 12, rol32 (t 12) 11, rol32 (t 18) 21, rol32 (t 24) 14,
    rol32 (t 3) 28, rol32 (t 9) 20, rol32 (t 10) 3, rol32 (t 16) 13, rol32 (t 22) 29,
    rol32 (t 1) 1, rol32 (t 7) 6, rol32 (t 13) 25, rol32 (t 19) 8, rol32 (t 20) 18,
    rol32 (t 4) 27, rol32 (t 5) 4, rol32 (t 11) 10, rol32 (t 17) 15, rol32 (t 23) 24,
    rol32 (t 2) 30, rol32 (t 8) 23, rol32 (t 14) 7, rol32 (t 15) 9, rol32 (t 21) 2].getD i 0
  let chi := fun i =>
    let row := i / 5 * 5
    b i ^^^ (b (row + (i + 2) % 5) &&& (b (row + (i + 1) % 5) ^^^ (2 ^ 32 - 1)))
  (List.range 25).map fun i => if i = 0 then chi 0 ^^^ rc else chi i

/-- `kf800_permute` (supp.c:311): the last nr of the 10 stored rounds. -/
def kf800_permute (A : List Nat) (nr : Nat) : List Nat :=
  (kf800_rcs.drop (10 - nr)).foldl kf800_round A

/-- Little-endian value of a byte list. -/
def bytesVal : List Nat → Nat
  | [] => 0
  | b :: rest => b + 256 * bytesVal rest

/-- Byte i of a natural number. -/
def byteOf (v i : Nat) : Nat := v / 2 ^ (8 * i) % 256

/-- The little-endian bytes of the 25-word Keccak state, from its words. -/
def wordsToBytes (w : List Nat) : List Nat :=
  (List.range 100).map fun i => w.getD (i / 4) 0 / 2 ^ (8 * (i % 4)) % 256

/-- The 25 words of the Keccak state, from its 100 bytes. -/
def bytesToWords (s : List Nat) : List Nat :=
  (List.range 25).map fun i =>
    s.getD (4 * i) 0 + s.getD (4 * i + 1) 0 * 2 ^ 8 +
    s.getD (4 * i + 2) 0 * 2 ^ 16 + s.getD (4 * i + 3) 0 * 2 ^ 24

/-- `wam_copy` (supp.c:521) writing into a byte buffer at offset `off`:
lengths are truncated to whole words, so only 4*(len/4) bytes move. -/
def wam_copy_at (dst : List Nat) (off : Nat) (src : List Nat) (len : Nat) : List Nat :=
  dst.take off ++ src.take (4 * (len / 4)) ++ dst.drop (off + 4 * (len / 4))

/-- `wam_zero` (supp.c:596) on a byte buffer at offset `off`, length
truncated to whole words. -/
def wam_zero_at (dst : List Nat) (off : Nat) (len : Nat) : List Nat :=
  dst.take off ++ List.replicate (4 * (len / 4)) 0 ++ dst.drop (off + 4 * (len / 4))

/-- The Bob Jr. sponge context (supp.h:50): byte pointer and the 100-byte
Keccak-f[800] state. -/
structure bobjr_ctx where
  ptr : Nat
  state : List Nat
deriving DecidableEq

/-- Modelled from the spec: `bobjr_init` (declared in supp.h:55 but not
among the supplied sources): zero state, zero pointer. -/
def bobjr_init : bobjr_ctx := ⟨0, List.replicate 100 0⟩

/-- Permute the byte-level state (the C casts the byte array to words). -/
def bobjr_permute (s : List Nat) : List Nat :=
  wordsToBytes (kf800_permute (bytesToWords s) 10)

/-- The while-loop of `bobjr_absorb_wa` (supp.c:450-461). The fuel is an
upper bound on the number of iterations; `len` itself suffices since
every iteration with `ptr < 68` consumes at least one byte of input. -/
def bobjr_absorb_go : Nat → List Nat → Nat → List Nat → Nat → List Nat × Nat
  | 0, st, ptr, _, _ => (st, ptr)
  | fuel + 1, st, ptr, data, len =>
    if len = 0 then (st, ptr)
    else
      let cpy := min len (68 - ptr)
      let st := wam_copy_at st ptr data cpy
      let data := data.drop cpy
      let len := len - cpy
      let ptr := ptr + cpy
      if ptr = 68 then bobjr_absorb_go fuel (bobjr_permute st) 0 data len
      else bobjr_absorb_go fuel st ptr data len

/-- `bobjr_absorb_wa` (supp.c:447): overwrite-mode absorption of `len`
bytes of `data`. -/
def bobjr_absorb_wa (ctx : bobjr_ctx) (data : List Nat) (len : Nat) : bobjr_ctx :=
  let s := bobjr_absorb_go len ctx.state ctx.ptr data len
  ⟨s.2, s.1⟩

/-- `bobjr_finish_wa` (supp.c:466): zero the rest of the rate, place the
0x01 pad at ptr, OR 0x80 into the last rate byte, permute. -/
def bobjr_finish_wa (ctx : bobjr_ctx) : bobjr_ctx :=
  let st := wam_zero_at ctx.state ctx.ptr (68 - ctx.ptr)
  let st := st.set ctx.ptr 0x01
  let st := st.set 67 (st.getD 67 0 ||| 0x80)
  ⟨0, bobjr_permute st⟩

/-- `scalar_get_hrqm` (qdsv.c:974): h = large_red(BobJr(R, Q, M)), the
hash state read as sixteen little-endian words. -/
def scalar_get_hrqm (r q m : List Nat) : Nat :=
  let ctx := bobjr_init
  let ctx := bobjr_absorb_wa ctx r 32
  let ctx := bobjr_absorb_wa ctx q 32
  let ctx := bobjr_absorb_wa ctx m 32
  let ctx := bobjr_finish_wa ctx
  large_red (bytesVal (ctx.state.take 64))

/- ----------------------------------------------------------------------
Verification equation: biquadratic forms and the quad test (qdsv.c).
---------------------------------------------------------------------- -/

/-- `muhat` (qdsv.c:743). -/
def muhat : List Nat := [0x0021, 0x000B, 0x0011, 0x0031]

/-- `fe1271_H` (qdsv.c:758): Hadamard transform via negate, hdmrd,
negate. -/
def fe1271_H (k : kpoint) : kpoint :=
  let k := { k with X := fe1271_neg k.X }
  let k := fe1271_hdmrd k
  { k with T := fe1271_neg k.T }

/-- `dot` (qdsv.c:774). -/
def dot (x0 x1 x2 x3 y0 y1 y2 y3 : Fe) : Fe :=
  let r := fe1271_mul x0 y0
  let t := fe1271_mul x1 y1
  let r := fe1271_add r t
  let t := fe1271_mul x2 y2
  let r := fe1271_add r t
  let t := fe1271_mul x3 y3
  fe1271_add r t

/-- `dot_const` (qdsv.c:799): x0*k1 - x1*k2 - x2*k3 + x3*k4 with the
fixed small constants. -/
def dot_const (x0 x1 x2 x3 : Fe) : Fe :=
  let r := fe1271_mulconst x0 0x1259
  let t := fe1271_mulconst x1 0x173F
  let r := fe1271_sub r t
  let t := fe1271_mulconst x2 0x1679
  let r := fe1271_sub r t
  let t := fe1271_mulconst x3 0x07C7
  fe1271_add r t

/-- `bii_values` (qdsv.c:827): the four diagonal forms B11..B44 of the
(already Hadamard-transformed) points sP and hQ. -/
def bii_values (sP hQ : kpoint) : kpoint :=
  let t0 := sqr4 sP
  let r := sqr4 hQ
  let t0 := mul4_const t0 ehat
  let r := mul4_const r ehat
  let t0 := { t0 with X := fe1271_neg t0.X }
  let r := { r with X := fe1271_neg r.X }
  let t1X := dot t0.X t0.Y t0.Z t0.T r.X r.Y r.Z r.T
  let t1Y := dot t0.X t0.Y t0.Z t0.T r.Y r.X r.T r.Z
  let t1Z := dot t0.X t0.Z t0.Y t0.T r.Z r.X r.T r.Y
  let t1T := dot t0.X t0.T t0.Y t0.Z r.T r.X r.Z r.Y
  let rX := dot_const t1X t1Y t1Z t1T
  let rY := dot_const t1Y t1X t1T t1Z
  let rZ := dot_const t1Z t1T t1X t1Y
  let rT := dot_const t1T t1Z t1Y t1X
  let r := mul4_const ⟨rX, rY, rZ, rT⟩ muhat
  { r with X := fe1271_neg r.X }

/-- `bij_value` (qdsv.c:861): the off-diagonal biquadratic form from a
permutation of the coordinates and of the muhat constants. -/
def bij_value (P1 P2 P3 P4 Q1 Q2 Q3 Q4 : Fe) (c1 c2 c3 c4 : Nat) : Fe :=
  let r := fe1271_mul P1 P2
  let tX := fe1271_mul Q1 Q2
  let tY := fe1271_mul P3 P4
  let r := fe1271_sub r tY
  let tZ := fe1271_mul Q3 Q4
  let tX := fe1271_sub tX tZ
  let r := fe1271_mul r tX
  let tX := fe1271_mul tY tZ
  let r := fe1271_mulconst r c3
  let r := fe1271_mulconst r c4
  let tY := fe1271_sum c3 c4 c1 c2
  let tX := fe1271_mul tX tY
  let r := fe1271_sub tX r
  let r := fe1271_mulconst r c1
  let r := fe1271_mulconst r c2
  let tY := fe1271_sum c2 c4 c1 c3
  let r := fe1271_mul r tY
  let tY := fe1271_sum c2 c3 c1 c4
  fe1271_mul r tY

/-- The Kummer quadratic constant `C` (qdsv.c:903), little-endian bytes. -/
def Cquad : Fe :=
  ((0x43 + 0xA8 * 2 ^ 8 + 0xDD * 2 ^ 16 + 0xCD * 2 ^ 24 + 0xD8 * 2 ^ 32 + 0xE3 * 2 ^ 40 +
    0xF7 * 2 ^ 48 + 0x46 * 2 ^ 56 + 0xDD * 2 ^ 64 + 0xA2 * 2 ^ 72 + 0x20 * 2 ^ 80 +
    0xA3 * 2 ^ 88 + 0xEF * 2 ^ 96 + 0x0E * 2 ^ 104 + 0xF5 * 2 ^ 112 + 0x40 * 2 ^ 120 : Nat) : Fe)

/-- `quad` (qdsv.c:900): 0 iff Bjj*R1^2 - 2*C*Bij*R1*R2 + Bii*R2^2 = 0. -/
def quad (Bij Bjj Bii R1 R2 : Fe) : Nat :=
  let tX := fe1271_square R1
  let tX := fe1271_mul Bjj tX
  let tY := fe1271_mul R1 R2
  let tY := fe1271_mul Bij tY
  let tY := fe1271_mul Cquad tY
  let tY := fe1271_add tY tY
  let tX := fe1271_sub tX tY
  let tY := fe1271_square R2
  let tY := fe1271_mul Bii tY
  let tX := fe1271_add tX tY
  fe1271_zeroness tX

/-- The six quad tests of `check` (qdsv.c:944-970), as a 6-tuple, from
the Hadamard-transformed points sP, hQ, R. The B23, B24, B34 values are
negated before their quad test, as in the source. -/
def check_tests (sP hQ R : kpoint) : Nat × Nat × Nat × Nat × Nat × Nat :=
  let Bii := bii_values sP hQ
  let b12 := bij_value sP.X sP.Y sP.Z sP.T hQ.X hQ.Y hQ.Z hQ.T
    (muhat.getD 0 0) (muhat.getD 1 0) (muhat.getD 2 0) (muhat.getD 3 0)
  let q12 := quad b12 Bii.Y Bii.X R.X R.Y
  let b13 := bij_value sP.X sP.Z sP.Y sP.T hQ.X hQ.Z hQ.Y hQ.T
    (muhat.getD 0 0) (muhat.getD 2 0) (muhat.getD 1 0) (muhat.getD 3 0)
  let q13 := quad b13 Bii.Z Bii.X R.X R.Z
  let b14 := bij_value sP.X sP.T sP.Y sP.Z hQ.X hQ.T hQ.Y hQ.Z
    (muhat.getD 0 0) (muhat.getD 3 0) (muhat.getD 1 0) (muhat.getD 2 0)
  let q14 := quad b14 Bii.T Bii.X R.X R.T
  let b23 := bij_value sP.Y sP.Z sP.X sP.T hQ.Y hQ.Z hQ.X hQ.T
    (muhat.getD 1 0) (muhat.getD 2 0) (muhat.getD 0 0) (muhat.getD 3 0)
  let q23 := quad (fe1271_neg b23) Bii.Z Bii.Y R.Y R.Z
  let b24 := bij_value sP.Y sP.T sP.X sP.Z hQ.Y hQ.T hQ.X hQ.Z
    (muhat.getD 1 0) (muhat.getD 3 0) (muhat.getD 0 0) (muhat.getD 2 0)
  let q24 := quad (fe1271_neg b24) Bii.T Bii.Y R.Y R.T
  let b34 := bij_value sP.Z sP.T sP.X sP.Y hQ.Z hQ.T hQ.X hQ.Y
    (muhat.getD 2 0) (muhat.getD 3 0) (muhat.getD 0 0) (muhat.getD 1 0)
  let q34 := quad (fe1271_neg b34) Bii.T Bii.Z R.Z R.T
  (q12, q13, q14, q23, q24, q34)

/-- The accumulation `v |= quad(...)` over the six tests (qdsv.c:935,
947-970): the bitwise OR of the six outcomes. -/
def or6 (q : Nat × Nat × Nat × Nat × Nat × Nat) : Nat :=
  q.1 ||| q.2.1 ||| q.2.2.1 ||| q.2.2.2.1 ||| q.2.2.2.2.1 ||| q.2.2.2.2.2

/-- `check` (qdsv.c:931): Hadamard-transform sP and hQ, decompress the
compressed R (reject on failure), Hadamard-transform it, and OR the six
quad outcomes. -/
def check (sP hQ : kpoint) (x1 x2 : Nat) : Nat :=
  let sPH := fe1271_H sP
  let hQH := fe1271_H hQ
  let d := decompress zeroK zeroK x1 x2
  if d.flag ≠ 0 then 1
  else or6 (check_tests sPH hQH (fe1271_H d.r))

/- ----------------------------------------------------------------------
The verify entry point (qdsv.c:1005).
---------------------------------------------------------------------- -/

/-- The low 16-byte half of a 32-byte buffer, as a value. -/
def ck1 (b : List Nat) : Nat := bytesVal (b.take 16)

/-- The high 16-byte half of a 32-byte buffer, as a value. -/
def ck2 (b : List Nat) : Nat := bytesVal ((b.drop 16).take 16)

/-- The decompression of the public key inside `qdsa_verify`
(qdsv.c:1010); its local kpoints start as scratch, taken here as zero. -/
def verify_pkDecomp (pk : List Nat) : DecompRes :=
  decompress zeroK zeroK (ck1 pk) (ck2 pk)

/-- The scalar s parsed and reduced from the second half of the
signature (qdsv.c:1014). -/
def verify_s (sig : List Nat) : Nat := scalar_get32 (bytesVal ((sig.drop 32).take 32))

/-- The point [h]Q computed by the first ladder of `qdsa_verify`
(qdsv.c:1017-1018). -/
def verify_hQ (sig pk msg : List Nat) : kpoint :=
  let Q := (verify_pkDecomp pk).r
  let pxw := xWRAP Q
  (ladder_250 Q pxw (scalar_get_hrqm (sig.take 32) pk msg)).1

/-- The point [s]P computed by the base-point ladder of `qdsa_verify`
(qdsv.c:1019). -/
def verify_sP (sig : List Nat) : kpoint := ladder_base_250 (verify_s sig)

/-- `qdsa_verify` (qdsv.c:1005): 0 if the signature is accepted, 1
otherwise. -/
def qdsa_verify (sig pk msg : List Nat) : Nat :=
  if (verify_pkDecomp pk).flag ≠ 0 then 1
  else check (verify_sP sig) (verify_hQ sig pk msg) (ck1 sig) (ck2 sig)

/- ----------------------------------------------------------------------
Compression and Diffie-Hellman exchange (CONF_QDSA_FULL part of qdsv.c).
---------------------------------------------------------------------- -/

/-- `T_row` (qdsv.c:1054): khat_2*X2 + khat_3*X3 + khat_4*X4 - khat_1*X1. -/
def T_row (x1 x2 x3 x4 : Fe) : Fe :=
  let r := fe1271_mulconst x2 0x80
  let t := fe1271_mulconst x3 0x239
  let r := fe1271_add r t
  let t := fe1271_mulconst x4 0x449
  let r := fe1271_add r t
  let t := fe1271_mulconst x1 0x3C1
  fe1271_sub r t

/-- `T` (qdsv.c:1084): the theta transform used by compression. -/
def T (x : kpoint) : kpoint :=
  ⟨T_row x.T x.Z x.Y x.X,
   T_row x.Z x.T x.X x.Y,
   T_row x.Y x.X x.T x.Z,
   T_row x.X x.Y x.Z x.T⟩

/-- `compress` (qdsv.c:1103): returns the raw values of the two packed
16-byte halves (l1 with tau in the top bit, l2 with sigma in the top
bit). -/
def compress (x : kpoint) : Nat × Nat :=
  let t := T x
  let tau := fe1271_zeroness t.Z
  let inv :=
    if tau ≠ 0 then fe1271_invert t.Z
    else if fe1271_zeroness t.Y ≠ 0 then fe1271_invert t.Y
    else if fe1271_zeroness t.X ≠ 0 then fe1271_invert t.X
    else fe1271_invert t.T
  let l4 := fe1271_mul t.T inv
  let l1 := fe1271_mul t.X inv
  let l2 := fe1271_mul t.Y inv
  let g2 := get_k2 l1 l2 tau
  let z := fe1271_mul g2.1 l4
  let g3 := get_k3 l1 l2 tau 0
  let z := fe1271_sub z g3.1
  let l1 := fe1271_freeze l1
  let l2 := fe1271_freeze l2
  let z := fe1271_freeze z
  (l1.val ||| (tau &&& 1) <<< 127, l2.val ||| (z.val &&& 1) <<< 127)

/-- `qdsa_dh_exchange` (qdsv.c:1168). The result of `decompress` is
discarded; the function always returns 0 together with the two packed
halves of the computed shared secret. `PK0`, `SS0` are the incoming
(uninitialised) contents of the two local kpoints. -/
def qdsa_dh_exchange (PK0 SS0 : kpoint) (pk sk : List Nat) : Nat × Nat × Nat :=
  let d := decompress PK0 SS0 (ck1 pk) (ck2 pk)
  let pkw := xWRAP d.r
  let n := scalar_get32 (bytesVal (sk.take 32))
  let l := ladder_250 d.r pkw n
  let c := compress l.1
  (0, c.1, c.2)

/-- Little-endian byte serialisation of a value (the C writes the packed
halves with `wam_copy`); models reading n bytes out of a ckpoint. -/
def natBytes (v n : Nat) : List Nat := (List.range n).map fun i => v / 2 ^ (8 * i) % 256

/-- `scalar_ops` (qdsv.c:1041): s = (r - h*d) mod N on scalar values; the
negation is 256-bit, the sums are carried into the 512-bit buffer before
the final reduction. -/
def scalar_ops (rck h d : Nat) : Nat :=
  let s := large_red (large_mul h d)
  let t := large_neg s
  let t := large_add t rck 0
  large_red t

/-- `qdsa_keypair` (qdsv.c:1194): derive sk = H(seed) (64 bytes) and the
compressed public key of [d-prime]P, d-prime being the second half of sk. -/
def qdsa_keypair (seed : List Nat) : List Nat × List Nat :=
  let ctx := bobjr_init
  let ctx := bobjr_absorb_wa ctx seed 32
  let ctx := bobjr_finish_wa ctx
  let sk := ctx.state.take 64
  let s := scalar_get32 (bytesVal ((sk.drop 32).take 32))
  let R := ladder_base_250 s
  let c := compress R
  (natBytes c.1 16 ++ natBytes c.2 16, sk)

/-- `qdsa_sign` (qdsv.c:1223): R = [r]P with r = H(d-doubleprime, msg),
h = H(R, Q, msg), s = (r - h*d-prime) mod N; the signature is the packed
R followed by the 32 bytes of s. -/
def qdsa_sign (msg pk sk : List Nat) : List Nat :=
  let ctx := bobjr_init
  let ctx := bobjr_absorb_wa ctx (sk.take 32) 32
  let ctx := bobjr_absorb_wa ctx msg 32
  let ctx := bobjr_finish_wa ctx
  let r := large_red (bytesVal (ctx.state.take 64))
  let R := ladder_base_250 r
  let c := compress R
  let rx := natBytes c.1 16 ++ natBytes c.2 16
  let h := scalar_get_hrqm rx pk msg
  let d := scalar_get32 (bytesVal ((sk.drop 32).take 32))
  let s := scalar_ops r h d
  rx ++ natBytes s 32

/-- Concrete seed (32 zero bytes) for the validation instances below. -/
def seed0 : List Nat := List.replicate 32 0

/-- Concrete message (32 bytes of 0x03) for the validation instances. -/
def msg0 : List Nat := List.replicate 32 3

/- ----------------------------------------------------------------------
Helper lemmas.
---------------------------------------------------------------------- -/

lemma fe_square_pow (x : Fe) : fe1271_square x = x ^ 2 := by
  rw [fe1271_square, pow_two]

lemma nsquare_eq (k : Nat) (x : Fe) : nsquare k x = x ^ 2 ^ k := by
  induction k generalizing x with
  | zero => simp [nsquare]
  | succ k ih =>
    rw [nsquare, ih, fe_square_pow, ← pow_mul]
    congr 1
    rw [pow_succ]
    ring

/-- The addition chain of `fe1271_powminhalf` computes the exponent
3*2^125 - 2 (which is (p-3)/4 + (p-1)/2, not (p-3)/2). -/
lemma powminhalf_eq (x : Fe) : fe1271_powminhalf x = x ^ (3 * 2 ^ 125 - 2) := by
  simp only [fe1271_powminhalf, fe1271_mul, fe_square_pow, nsquare_eq, fe1271_square]
  ring_nf

lemma invert_eq (x : Fe) : fe1271_invert x = x ^ (3 * 2 ^ 127 - 7) := by
  simp only [fe1271_invert, fe1271_mul, fe_square_pow, powminhalf_eq]
  ring_nf

lemma mul_invert_eq_one (x : Fe) (hx : x ≠ 0) : x * fe1271_invert x = 1 := by
  rw [invert_eq, ← pow_succ']
  have h : 3 * 2 ^ 127 - 7 + 1 = (pval - 1) * 3 := by norm_num
  rw [h, pow_mul, ZMod.pow_card_sub_one_eq_one hx, one_pow]

lemma pow_spec_exp : (2 : Fe) ^ ((pval - 3) / 2) = ((2 ^ 126 : Nat) : Fe) := by
  have hsplit : (pval - 3) / 2 = 127 * ((2 ^ 126 - 128) / 127) + 126 := by decide
  rw [hsplit, pow_add, pow_mul]
  have h127 : (2 : Fe) ^ 127 = 1 := by decide
  rw [h127, one_pow, one_mul, Nat.cast_pow]
  norm_num

/- ----------------------------------------------------------------------
Claim C6.
---------------------------------------------------------------------- -/

/-- Claim C6, counterexample: at x = 2 the addition chain of
`fe1271_powminhalf` yields 2^63, whereas x^((p-3)/2) is 2^126; the
claimed congruence fails. -/
theorem claim_C6_counterexample :
    fe1271_powminhalf 2 ≠ (2 : Fe) ^ ((pval - 3) / 2) := by
  have h1 : fe1271_powminhalf 2 = ((2 ^ 63 : Nat) : Fe) := by decide
  rw [h1, pow_spec_exp]
  decide

/-- Claim C6, amended: for every fe1271 input x, `fe1271_powminhalf x`
is congruent to x^(3*2^125 - 2) = x^((p-3)/4 + (p-1)/2) modulo
p = 2^127 - 1 (the exponent the chain actually computes; on nonzero
squares this is x^(-1/2)). -/
theorem claim_C6_theorem (x : Fe) : fe1271_powminhalf x = x ^ (3 * 2 ^ 125 - 2) :=
  powminhalf_eq x

/- ----------------------------------------------------------------------
Claim C7.
---------------------------------------------------------------------- -/

/-- Claim C7: for every fe1271 x that is not congruent to 0 modulo
p = 2^127 - 1, `fe1271_mul x (fe1271_invert x)` is congruent to 1
modulo p. -/
theorem claim_C7_theorem (x : Fe) (hx : x ≠ 0) :
    fe1271_mul x (fe1271_invert x) = 1 := by
  rw [fe1271_mul]
  exact mul_invert_eq_one x hx

/-- Claim C7, witness at x = 2. -/
theorem claim_C7_witness :
    (2 : Fe) ≠ 0 ∧ fe1271_mul 2 (fe1271_invert 2) = 1 :=
  ⟨by decide, claim_C7_theorem 2 (by decide)⟩

/- ----------------------------------------------------------------------
Claim C5.
---------------------------------------------------------------------- -/

/-- Claim C5, counterexample: the input with l1 = l2 = 0 and the tau bit
set (byte 15 = 0x80, i.e. raw first half 2^127) is claimed to be
rejected, but `decompress` accepts it: K2 = q4^2 is nonzero, so the
K2 nonzero branch runs with Delta = K3^2 - K2*K4 = 0, whose square root
0 exists for either sigma. -/
theorem claim_C5_counterexample :
    (decompress zeroK zeroK (2 ^ 127) 0).flag ≠ 1 := by decide

/-- Claim C5, amended: decompress of the all-zero 32-byte input (both
high bits zero) returns 0 and yields the code's representation of the
identity, T_inv (0,0,0,1); the input with l1 = l2 = 0 and only the sigma
bit set is rejected; but the inputs with l1 = l2 = 0 and the tau bit set
(with either sigma) are accepted, not rejected. -/
theorem claim_C5_theorem :
    decompress zeroK zeroK 0 0 =
      ⟨0, T_inv ⟨0, 0, 0, set_const 1⟩, ⟨0, 0, 0, set_const 1⟩⟩ ∧
    (decompress zeroK zeroK 0 (2 ^ 127)).flag = 1 ∧
    (decompress zeroK zeroK (2 ^ 127) 0).flag = 0 ∧
    (decompress zeroK zeroK (2 ^ 127) (2 ^ 127)).flag = 0 := by decide

/- ----------------------------------------------------------------------
Claim C9.
---------------------------------------------------------------------- -/

/-- Claim C9: absorbing a single byte at ptr = 0 writes nothing into the
sponge state (wam_copy truncates the length 1 to zero whole words), yet
the pointer still advances past the byte. -/
theorem claim_C9_theorem (ctx : bobjr_ctx) (data : List Nat) (h : ctx.ptr = 0) :
    (bobjr_absorb_wa ctx data 1).state = ctx.state ∧
    (bobjr_absorb_wa ctx data 1).ptr = 1 := by
  simp [bobjr_absorb_wa, bobjr_absorb_go, wam_copy_at, h]

/-- Claim C9, witness at a concrete context and data byte. -/
theorem claim_C9_witness :
    (⟨0, [7, 7]⟩ : bobjr_ctx).ptr = 0 ∧
    (bobjr_absorb_wa ⟨0, [7, 7]⟩ [5] 1).state = (⟨0, [7, 7]⟩ : bobjr_ctx).state ∧
    (bobjr_absorb_wa ⟨0, [7, 7]⟩ [5] 1).ptr = 1 :=
  ⟨rfl, claim_C9_theorem ⟨0, [7, 7]⟩ [5] rfl⟩

/- ----------------------------------------------------------------------
Claim C10.
---------------------------------------------------------------------- -/

/-- Claim C10: `qdsa_dh_exchange` returns 0 for every remote public key
and every initial content of its local kpoints, even though some public
keys fail decompression (the second conjunct exhibits one: 32 bytes that
are zero except for the sigma bit in byte 31); the failure flag is
discarded and the shared secret is computed from what the failed
decompression left behind. -/
theorem claim_C10_theorem (PK0 SS0 : kpoint) (pk sk : List Nat) :
    (qdsa_dh_exchange PK0 SS0 pk sk).1 = 0 ∧
    (verify_pkDecomp (List.replicate 31 0 ++ [0x80])).flag = 1 :=
  ⟨rfl, by decide⟩

/- ----------------------------------------------------------------------
Claim C2 (with helper lemmas on the 0/1 outcome algebra).
---------------------------------------------------------------------- -/

lemma nat_lor_eq_zero (a b : Nat) : a ||| b = 0 ↔ a = 0 ∧ b = 0 := by
  constructor
  · intro h
    have h2 : ∀ i, a.testBit i = false ∧ b.testBit i = false := by
      intro i
      have h3 : (a ||| b).testBit i = false := by rw [h]; exact Nat.zero_testBit i
      rw [Nat.testBit_lor] at h3
      exact Bool.or_eq_false_iff.mp h3
    exact ⟨Nat.eq_of_testBit_eq fun i => by rw [(h2 i).1, Nat.zero_testBit],
           Nat.eq_of_testBit_eq fun i => by rw [(h2 i).2, Nat.zero_testBit]⟩
  · rintro ⟨rfl, rfl⟩
    rfl

lemma zeroness01 (x : Fe) : fe1271_zeroness x = 0 ∨ fe1271_zeroness x = 1 := by
  rw [fe1271_zeroness]
  split
  · exact Or.inl rfl
  · exact Or.inr rfl

lemma quad01 (a b c d e : Fe) : quad a b c d e = 0 ∨ quad a b c d e = 1 :=
  zeroness01 _

lemma or6_eq_zero_iff (q : Nat × Nat × Nat × Nat × Nat × Nat) :
    or6 q = 0 ↔ q = (0, 0, 0, 0, 0, 0) := by
  obtain ⟨q1, q2, q3, q4, q5, q6⟩ := q
  rw [or6]
  rw [nat_lor_eq_zero, nat_lor_eq_zero, nat_lor_eq_zero, nat_lor_eq_zero, nat_lor_eq_zero]
  simp only [Prod.mk.injEq]
  tauto

lemma or6_check_tests_01 (a b c : kpoint) :
    or6 (check_tests a b c) = 0 ∨ or6 (check_tests a b c) = 1 := by
  have h1 : (check_tests a b c).1 = 0 ∨ (check_tests a b c).1 = 1 := quad01 _ _ _ _ _
  have h2 : (check_tests a b c).2.1 = 0 ∨ (check_tests a b c).2.1 = 1 := quad01 _ _ _ _ _
  have h3 : (check_tests a b c).2.2.1 = 0 ∨ (check_tests a b c).2.2.1 = 1 := quad01 _ _ _ _ _
  have h4 : (check_tests a b c).2.2.2.1 = 0 ∨ (check_tests a b c).2.2.2.1 = 1 :=
    quad01 _ _ _ _ _
  have h5 : (check_tests a b c).2.2.2.2.1 = 0 ∨ (check_tests a b c).2.2.2.2.1 = 1 :=
    quad01 _ _ _ _ _
  have h6 : (check_tests a b c).2.2.2.2.2 = 0 ∨ (check_tests a b c).2.2.2.2.2 = 1 :=
    quad01 _ _ _ _ _
  rw [or6]
  generalize (check_tests a b c).1 = v1 at h1
  generalize (check_tests a b c).2.1 = v2 at h2
  generalize (check_tests a b c).2.2.1 = v3 at h3
  generalize (check_tests a b c).2.2.2.1 = v4 at h4
  generalize (check_tests a b c).2.2.2.2.1 = v5 at h5
  generalize (check_tests a b c).2.2.2.2.2 = v6 at h6
  rcases h1 with h1 | h1 <;> rcases h2 with h2 | h2 <;> rcases h3 with h3 | h3 <;>
    rcases h4 with h4 | h4 <;> rcases h5 with h5 | h5 <;> rcases h6 with h6 | h6 <;>
    subst h1 <;> subst h2 <;> subst h3 <;> subst h4 <;> subst h5 <;> subst h6 <;>
    simp

lemma check_eq_zero_iff (sP hQ : kpoint) (x1 x2 : Nat) :
    check sP hQ x1 x2 = 0 ↔
      (decompress zeroK zeroK x1 x2).flag = 0 ∧
      check_tests (fe1271_H sP) (fe1271_H hQ)
        (fe1271_H (decompress zeroK zeroK x1 x2).r) = (0, 0, 0, 0, 0, 0) := by
  show (if (decompress zeroK zeroK x1 x2).flag ≠ 0 then 1
    else or6 (check_tests (fe1271_H sP) (fe1271_H hQ)
      (fe1271_H (decompress zeroK zeroK x1 x2).r))) = 0 ↔ _
  generalize decompress zeroK zeroK x1 x2 = d
  by_cases hf : d.flag = 0
  · simp only [hf, ne_eq, not_true_eq_false, reduceIte]
    rw [or6_eq_zero_iff]
    tauto
  · simp [hf]

lemma check01 (sP hQ : kpoint) (x1 x2 : Nat) :
    check sP hQ x1 x2 = 0 ∨ check sP hQ x1 x2 = 1 := by
  have he : check sP hQ x1 x2 =
      if (decompress zeroK zeroK x1 x2).flag ≠ 0 then 1
      else or6 (check_tests (fe1271_H sP) (fe1271_H hQ)
        (fe1271_H (decompress zeroK zeroK x1 x2).r)) := rfl
  rw [he]
  by_cases hf : (decompress zeroK zeroK x1 x2).flag = 0
  · simp only [hf, ne_eq, not_true_eq_false, reduceIte]
    exact or6_check_tests_01 _ _ _
  · simp [hf]

/-- Claim C2: `qdsa_verify` returns 0 exactly when the public key
decompresses, the first signature half decompresses, and all six quad
tests of the biquadratic identities evaluate to 0; in every other case
it returns 1 (its value is always 0 or 1). -/
theorem claim_C2_theorem (sig pk msg : List Nat) :
    (qdsa_verify sig pk msg = 0 ↔
      (verify_pkDecomp pk).flag = 0 ∧
      (decompress zeroK zeroK (ck1 sig) (ck2 sig)).flag = 0 ∧
      check_tests (fe1271_H (verify_sP sig)) (fe1271_H (verify_hQ sig pk msg))
        (fe1271_H (decompress zeroK zeroK (ck1 sig) (ck2 sig)).r) = (0, 0, 0, 0, 0, 0)) ∧
    (qdsa_verify sig pk msg = 0 ∨ qdsa_verify sig pk msg = 1) := by
  have hv : qdsa_verify sig pk msg =
      if (verify_pkDecomp pk).flag ≠ 0 then 1
      else check (verify_sP sig) (verify_hQ sig pk msg) (ck1 sig) (ck2 sig) := rfl
  by_cases h1 : (verify_pkDecomp pk).flag = 0
  · rw [hv, if_neg (by simp [h1])]
    constructor
    · rw [check_eq_zero_iff]
      tauto
    · exact check01 _ _ _ _
  · rw [hv, if_pos h1]
    constructor
    · simp [h1]
    · exact Or.inr rfl

/- ----------------------------------------------------------------------
Claim C8 (with the word-level swap lemmas).
---------------------------------------------------------------------- -/

lemma maskSwapWord_zero (a c : Nat) : maskSwapWord a c 0 = (a, c) := by
  simp [maskSwapWord]

lemma maskSwapWord_ones (a c : Nat) (ha : a < 2 ^ 32) (hc : c < 2 ^ 32) :
    maskSwapWord a c (2 ^ 32 - 1) = (c, a) := by
  rw [maskSwapWord]
  have ht : (a ^^^ c) &&& (2 ^ 32 - 1) = a ^^^ c := by
    rw [Nat.and_pow_two_sub_one_eq_mod]
    exact Nat.mod_eq_of_lt (Nat.xor_lt_two_pow ha hc)
  rw [ht, Prod.mk.injEq]
  constructor
  · rw [← Nat.xor_assoc, Nat.xor_self, Nat.zero_xor]
  · rw [Nat.xor_comm a c, ← Nat.xor_assoc, Nat.xor_self, Nat.zero_xor]

lemma wordOf_lt (v i : Nat) : wordOf v i < 2 ^ 32 := by
  rw [wordOf]
  exact Nat.mod_lt _ (by norm_num)

lemma fe_recompose (x : Fe) :
    ((wordOf x.val 0 + wordOf x.val 1 * 2 ^ 32 + wordOf x.val 2 * 2 ^ 64 +
      wordOf x.val 3 * 2 ^ 96 : Nat) : Fe) = x := by
  have hv : x.val < 2 ^ 127 := lt_of_lt_of_le x.val_lt (by norm_num)
  have hd : wordOf x.val 0 + wordOf x.val 1 * 2 ^ 32 + wordOf x.val 2 * 2 ^ 64 +
      wordOf x.val 3 * 2 ^ 96 = x.val := by
    simp only [wordOf]
    omega
  rw [hd]
  exact ZMod.natCast_rightInverse x

lemma ctSwapFe_zero (x y : Fe) : ctSwapFe x y 0 = (x, y) := by
  rw [ctSwapFe]
  simp only [maskSwapWord_zero]
  exact Prod.ext (fe_recompose x) (fe_recompose y)

lemma ctSwapFe_ones (x y : Fe) : ctSwapFe x y (2 ^ 32 - 1) = (y, x) := by
  rw [ctSwapFe]
  simp only [fun i => maskSwapWord_ones (wordOf x.val i) (wordOf y.val i)
    (wordOf_lt x.val i) (wordOf_lt y.val i)]
  exact Prod.ext (fe_recompose y) (fe_recompose x)

lemma ct_swap_spec (x y : kpoint) (b : Nat) (hb : b = 0 ∨ b = 1) :
    ct_swap x y b = if b = 1 then wam_swap x y else (x, y) := by
  rcases hb with rfl | rfl
  · show ct_swap x y 0 = (x, y)
    have hm : (2 ^ 32 - 0 % 2 ^ 32) % 2 ^ 32 = 0 := by norm_num
    simp only [ct_swap, hm, ctSwapFe_zero]
  · show ct_swap x y 1 = wam_swap x y
    have hm : (2 ^ 32 - 1 % 2 ^ 32) % 2 ^ 32 = 2 ^ 32 - 1 := by norm_num
    simp only [ct_swap, hm, ctSwapFe_ones, wam_swap]

lemma ladder_loop_eq (fuel : Nat) (xp xq xd : kpoint) (n pb : Nat)
    (hpb : pb = 0 ∨ pb = 1) :
    ladder_loop_full fuel xp xq xd n pb = ladder_loop fuel xp xq xd n pb := by
  induction fuel generalizing xp xq pb with
  | zero => rfl
  | succ f ih =>
    rw [ladder_loop_full, ladder_loop]
    have hbit : (if n.testBit f then 1 else 0) = 0 ∨ (if n.testBit f then 1 else 0) = 1 := by
      split
      · exact Or.inr rfl
      · exact Or.inl rfl
    have hswap : (if n.testBit f then 1 else 0) ^^^ pb = 0 ∨
        (if n.testBit f then 1 else 0) ^^^ pb = 1 := by
      rcases hbit with hb | hb <;> rcases hpb with hp | hp <;> rw [hb, hp] <;> simp
    rw [ct_swap_spec _ _ _ hswap]
    rcases hswap with hs | hs <;> rw [hs]
    · simp only [ne_eq, not_true_eq_false, reduceIte, one_ne_zero, zero_ne_one]
      exact ih _ _ _ hbit
    · simp only [ne_eq, one_ne_zero, not_false_eq_true, reduceIte, if_true]
      exact ih _ _ _ hbit

lemma ladder_loop_bit01 (fuel : Nat) (xp xq xd : kpoint) (n pb : Nat)
    (hpb : pb = 0 ∨ pb = 1) :
    (ladder_loop fuel xp xq xd n pb).2.2 = 0 ∨ (ladder_loop fuel xp xq xd n pb).2.2 = 1 := by
  induction fuel generalizing xp xq pb with
  | zero => exact hpb
  | succ f ih =>
    rw [ladder_loop]
    have hbit : (if n.testBit f then 1 else 0) = 0 ∨ (if n.testBit f then 1 else 0) = 1 := by
      split
      · exact Or.inr rfl
      · exact Or.inl rfl
    exact ih _ _ _ hbit

/-- Claim C8: for a swap bit in {0,1}, the constant-time `ct_swap`
leaves the two kpoints exactly as the verifier-only branchy swap does
(exchange iff the bit is 1); consequently `ladder_250` under the
constant-time compile returns the same (xp, xq) as under the
verifier-only compile, for every input point and scalar. -/
theorem claim_C8_theorem (x y : kpoint) (b : Nat) (hb : b = 0 ∨ b = 1)
    (xq xd : kpoint) (n : Nat) :
    ct_swap x y b = (if b = 1 then wam_swap x y else (x, y)) ∧
    ladder_250_full xq xd n = ladder_250 xq xd n := by
  refine ⟨ct_swap_spec x y b hb, ?_⟩
  rw [ladder_250_full, ladder_250, ladder_loop_eq 251 ladder_init xq xd n 0 (Or.inl rfl)]
  have h01 := ladder_loop_bit01 251 ladder_init xq xd n 0 (Or.inl rfl)
  rw [ct_swap_spec _ _ _ h01]
  rcases h01 with h | h <;> rw [h] <;> simp

/-- Claim C8, witness at concrete points, b = 1, scalar 5. -/
theorem claim_C8_witness :
    ((1 : Nat) = 0 ∨ (1 : Nat) = 1) ∧
    (ct_swap ladder_init bpw 1 = if (1 : Nat) = 1 then wam_swap ladder_init bpw
      else (ladder_init, bpw)) ∧
    ladder_250_full bpw ladder_init 5 = ladder_250 bpw ladder_init 5 :=
  ⟨Or.inr rfl, claim_C8_theorem ladder_init bpw 1 (Or.inr rfl) bpw ladder_init 5⟩

/- ----------------------------------------------------------------------
Claim C3: value semantics of the scalar reduction.
---------------------------------------------------------------------- -/

lemma shiftRight_land (x y n : Nat) : (x &&& y) >>> n = (x >>> n) &&& (y >>> n) := by
  apply Nat.eq_of_testBit_eq
  intro i
  simp [Nat.testBit_shiftRight, Nat.testBit_land]

lemma lor_small : ∀ a < 16, ∀ b < 64, a * 2 ^ 6 ||| b = a * 2 ^ 6 + b := by decide

-- numeric facts about the folding constants
lemma L6val_lt : L6val < 2 ^ 192 := by decide
lemma Lval_lt : Lval < 2 ^ 186 := by decide
lemma L6_mod : 2 ^ 256 % Nval = L6val := by decide
lemma L_mod : 2 ^ 250 % Nval = Lval := by decide
lemma L6val_lt256 : L6val < 2 ^ 256 := by decide
lemma Lval_lt256 : Lval < 2 ^ 256 := by decide

lemma large_mul_eq (x y : Nat) (hx : x < 2 ^ 256) (hy : y < 2 ^ 256) :
    large_mul x y = x * y := by
  unfold large_mul bigint_mul large_add
  have bx0 : x % 2 ^ 128 < 2 ^ 128 := Nat.mod_lt _ (by norm_num)
  have by0 : y % 2 ^ 128 < 2 ^ 128 := Nat.mod_lt _ (by norm_num)
  have bx1 : x / 2 ^ 128 < 2 ^ 128 := by omega
  have by1 : y / 2 ^ 128 < 2 ^ 128 := by omega
  simp only [Nat.mod_eq_of_lt bx1, Nat.mod_eq_of_lt by1]
  have hx' := Nat.div_add_mod x (2 ^ 128)
  have hy' := Nat.div_add_mod y (2 ^ 128)
  have bA : x % 2 ^ 128 * (y % 2 ^ 128) < 2 ^ 256 :=
    lt_of_lt_of_le (Nat.mul_lt_mul'' bx0 by0) (by norm_num)
  have bB : x % 2 ^ 128 * (y / 2 ^ 128) < 2 ^ 256 :=
    lt_of_lt_of_le (Nat.mul_lt_mul'' bx0 by1) (by norm_num)
  have bC : x / 2 ^ 128 * (y % 2 ^ 128) < 2 ^ 256 :=
    lt_of_lt_of_le (Nat.mul_lt_mul'' bx1 by0) (by norm_num)
  have bD : x / 2 ^ 128 * (y / 2 ^ 128) < 2 ^ 256 :=
    lt_of_lt_of_le (Nat.mul_lt_mul'' bx1 by1) (by norm_num)
  have key : x % 2 ^ 128 * (y % 2 ^ 128) + x % 2 ^ 128 * (y / 2 ^ 128) * 2 ^ 128 +
      x / 2 ^ 128 * (y % 2 ^ 128) * 2 ^ 128 + x / 2 ^ 128 * (y / 2 ^ 128) * 2 ^ 256 =
      x * y := by
    calc x % 2 ^ 128 * (y % 2 ^ 128) + x % 2 ^ 128 * (y / 2 ^ 128) * 2 ^ 128 +
        x / 2 ^ 128 * (y % 2 ^ 128) * 2 ^ 128 + x / 2 ^ 128 * (y / 2 ^ 128) * 2 ^ 256 =
        (2 ^ 128 * (x / 2 ^ 128) + x % 2 ^ 128) * (2 ^ 128 * (y / 2 ^ 128) + y % 2 ^ 128) := by
          ring
      _ = x * y := by rw [hx', hy']
  generalize hA : x % 2 ^ 128 * (y % 2 ^ 128) = A at bA key ⊢
  generalize hB : x % 2 ^ 128 * (y / 2 ^ 128) = B at bB key ⊢
  generalize hC : x / 2 ^ 128 * (y % 2 ^ 128) = C at bC key ⊢
  generalize hD : x / 2 ^ 128 * (y / 2 ^ 128) = D at bD key ⊢
  have bP : x * y < 2 ^ 512 := lt_of_lt_of_le (Nat.mul_lt_mul'' hx hy) (by norm_num)
  generalize hP : x * y = P at bP key ⊢
  norm_num
  omega

lemma red_fold_eq (c : Nat) (hc : c < 2 ^ 192) (r : Nat) (hr : r < 2 ^ 512) :
    large_add (r % 2 ^ 256 + large_mul (r / 2 ^ 256) c / 2 ^ 256 * 2 ^ 256)
      (large_mul (r / 2 ^ 256) c) 0 =
    r % 2 ^ 256 + r / 2 ^ 256 * c := by
  have hdiv : r / 2 ^ 256 < 2 ^ 256 := by omega
  rw [large_mul_eq _ _ hdiv (lt_of_lt_of_le hc (by norm_num)), large_add]
  have btemp : r / 2 ^ 256 * c < 2 ^ 448 :=
    lt_of_lt_of_le (Nat.mul_lt_mul'' hdiv hc) (by norm_num)
  have hmod : r % 2 ^ 256 < 2 ^ 256 := Nat.mod_lt _ (by norm_num)
  generalize hT : r / 2 ^ 256 * c = T at btemp ⊢
  generalize hM : r % 2 ^ 256 = M at hmod ⊢
  norm_num
  omega

lemma redstep_L6_eq (r : Nat) (hr : r < 2 ^ 512) :
    redstep_L6 r = r % 2 ^ 256 + r / 2 ^ 256 * L6val :=
  red_fold_eq L6val (by decide) r hr

lemma redstep_L_eq (r : Nat) (hr : r < 2 ^ 512) :
    redstep_L r = r % 2 ^ 256 + r / 2 ^ 256 * Lval :=
  red_fold_eq Lval (by decide) r hr

lemma redstep_L6_modeq (r : Nat) (hr : r < 2 ^ 512) :
    Nat.ModEq Nval (redstep_L6 r) r := by
  rw [redstep_L6_eq r hr]
  have h1 : Nat.ModEq Nval L6val (2 ^ 256) := by decide
  calc r % 2 ^ 256 + r / 2 ^ 256 * L6val
      ≡ r % 2 ^ 256 + r / 2 ^ 256 * 2 ^ 256 [MOD Nval] :=
        Nat.ModEq.add_left _ (Nat.ModEq.mul_left _ h1)
    _ = r := by omega

lemma redstep_L6_lt (r m : Nat) (hm : r < 2 ^ 256 * m) (hr : r < 2 ^ 512) :
    redstep_L6 r < 2 ^ 256 + m * L6val := by
  rw [redstep_L6_eq r hr]
  have hdm : r / 2 ^ 256 < m := Nat.div_lt_of_lt_mul hm
  have hp : r / 2 ^ 256 * L6val < m * L6val :=
    Nat.mul_lt_mul_of_pos_right hdm (by decide)
  have hmod : r % 2 ^ 256 < 2 ^ 256 := Nat.mod_lt _ (by norm_num)
  omega

lemma redshift_6_eq (r : Nat) (hr : r < 2 ^ 260) :
    redshift_6 r = r % 2 ^ 250 + r / 2 ^ 250 * 2 ^ 256 := by
  unfold redshift_6
  dsimp only
  have hr8lt : r / 2 ^ 256 < 16 := by omega
  have hmask1 : r / 2 ^ 224 % 2 ^ 32 &&& 0x03ffffff = r / 2 ^ 224 % 2 ^ 26 := by
    have h : (0x03ffffff : Nat) = 2 ^ 26 - 1 := by norm_num
    rw [h, Nat.and_pow_two_sub_one_eq_mod]
    omega
  have hmask2 : (r / 2 ^ 224 % 2 ^ 32 &&& 0xfc000000) >>> 26 = r / 2 ^ 250 % 2 ^ 6 := by
    rw [shiftRight_land]
    have h2 : (0xfc000000 : Nat) >>> 26 = 2 ^ 6 - 1 := by
      norm_num [Nat.shiftRight_eq_div_pow]
    rw [h2, Nat.and_pow_two_sub_one_eq_mod, Nat.shiftRight_eq_div_pow]
    omega
  have hshift : ((r / 2 ^ 256 % 2 ^ 32) <<< 6) % 2 ^ 32 = r / 2 ^ 256 * 2 ^ 6 := by
    rw [Nat.shiftLeft_eq]
    omega
  rw [hmask1, hmask2, hshift, lor_small _ hr8lt _ (by omega)]
  omega

lemma redshift_1_eq (r : Nat) (hr : r < 2 ^ 251) :
    redshift_1 r = r % 2 ^ 250 + r / 2 ^ 250 * 2 ^ 256 := by
  unfold redshift_1
  dsimp only
  have hmask1 : r / 2 ^ 224 % 2 ^ 32 &&& 0x03ffffff = r / 2 ^ 224 % 2 ^ 26 := by
    have h : (0x03ffffff : Nat) = 2 ^ 26 - 1 := by norm_num
    rw [h, Nat.and_pow_two_sub_one_eq_mod]
    omega
  have hmask2 : (r / 2 ^ 224 % 2 ^ 32 &&& 0x04000000) >>> 26 = r / 2 ^ 250 % 2 ^ 1 := by
    rw [shiftRight_land]
    have h2 : (0x04000000 : Nat) >>> 26 = 2 ^ 1 - 1 := by
      norm_num [Nat.shiftRight_eq_div_pow]
    rw [h2, Nat.and_pow_two_sub_one_eq_mod, Nat.shiftRight_eq_div_pow]
    omega
  rw [hmask1, hmask2]
  omega

lemma redstep_last_eq (r : Nat) (hr : r < 2 ^ 257) :
    redstep_last r = r % 2 ^ 256 + r / 2 ^ 256 * Lval := by
  unfold redstep_last
  have hdiv : r / 2 ^ 256 < 2 ^ 256 := by omega
  rw [large_mul_eq _ _ hdiv (by decide), large_add]
  have hT : r / 2 ^ 256 * Lval < 2 ^ 187 := by
    have h2 : r / 2 ^ 256 < 2 := by omega
    have := Nat.mul_lt_mul'' h2 (show Lval < 2 ^ 186 by decide)
    omega
  generalize hTT : r / 2 ^ 256 * Lval = T at hT ⊢
  norm_num
  omega

lemma redstep_L_modeq_of_shape (a b : Nat) (ha : a < 2 ^ 250) (hb : b < 2 ^ 10) :
    Nat.ModEq Nval (redstep_L (a + b * 2 ^ 256)) (a + b * 2 ^ 250) ∧
    redstep_L (a + b * 2 ^ 256) = a + b * Lval := by
  have hlt : a + b * 2 ^ 256 < 2 ^ 512 := by omega
  have hmod : (a + b * 2 ^ 256) % 2 ^ 256 = a := by omega
  have hdiv : (a + b * 2 ^ 256) / 2 ^ 256 = b := by omega
  have he : redstep_L (a + b * 2 ^ 256) = a + b * Lval := by
    rw [redstep_L_eq _ hlt, hmod, hdiv]
  refine ⟨?_, he⟩
  rw [he]
  have h1 : Nat.ModEq Nval Lval (2 ^ 250) := by decide
  exact Nat.ModEq.add_left _ ((Nat.ModEq.mul_left b h1))

lemma redstep_last_of_shape (a b : Nat) (ha : a < 2 ^ 250) (hb : b < 2 ^ 1) :
    Nat.ModEq Nval (redstep_last (a + b * 2 ^ 256)) (a + b * 2 ^ 250) ∧
    redstep_last (a + b * 2 ^ 256) = a + b * Lval := by
  have hlt : a + b * 2 ^ 256 < 2 ^ 257 := by omega
  have hmod : (a + b * 2 ^ 256) % 2 ^ 256 = a := by omega
  have hdiv : (a + b * 2 ^ 256) / 2 ^ 256 = b := by omega
  have he : redstep_last (a + b * 2 ^ 256) = a + b * Lval := by
    rw [redstep_last_eq _ hlt, hmod, hdiv]
  refine ⟨?_, he⟩
  rw [he]
  have h1 : Nat.ModEq Nval Lval (2 ^ 250) := by decide
  exact Nat.ModEq.add_left _ ((Nat.ModEq.mul_left b h1))

theorem large_red_spec (x : Nat) (hx : x < 2 ^ 512) :
    Nat.ModEq Nval (large_red x) x ∧ large_red x < 2 ^ 250 := by
  have hred : large_red x =
      redstep_last (redshift_1 (redstep_L (redshift_6
        (redstep_L6 (redstep_L6 (redstep_L6 (redstep_L6 x))))))) % 2 ^ 256 := rfl
  -- the four L6 folds
  have b1 : redstep_L6 x < 2 ^ 256 + 2 ^ 256 * L6val :=
    redstep_L6_lt x (2 ^ 256) (by omega) hx
  have m1 : Nat.ModEq Nval (redstep_L6 x) x := redstep_L6_modeq x hx
  have c1 : redstep_L6 x < 2 ^ 256 * 2 ^ 193 := lt_trans b1 (by decide)
  have c1' : redstep_L6 x < 2 ^ 512 := lt_trans c1 (by decide)
  have b2 : redstep_L6 (redstep_L6 x) < 2 ^ 256 + 2 ^ 193 * L6val :=
    redstep_L6_lt _ (2 ^ 193) c1 c1'
  have m2 : Nat.ModEq Nval (redstep_L6 (redstep_L6 x)) (redstep_L6 x) :=
    redstep_L6_modeq _ c1'
  have c2 : redstep_L6 (redstep_L6 x) < 2 ^ 256 * 2 ^ 130 := lt_trans b2 (by decide)
  have c2' : redstep_L6 (redstep_L6 x) < 2 ^ 512 := lt_trans c2 (by decide)
  have b3 : redstep_L6 (redstep_L6 (redstep_L6 x)) < 2 ^ 256 + 2 ^ 130 * L6val :=
    redstep_L6_lt _ (2 ^ 130) c2 c2'
  have m3 : Nat.ModEq Nval (redstep_L6 (redstep_L6 (redstep_L6 x)))
      (redstep_L6 (redstep_L6 x)) := redstep_L6_modeq _ c2'
  have c3 : redstep_L6 (redstep_L6 (redstep_L6 x)) < 2 ^ 256 * 2 ^ 67 :=
    lt_trans b3 (by decide)
  have c3' : redstep_L6 (redstep_L6 (redstep_L6 x)) < 2 ^ 512 := lt_trans c3 (by decide)
  have b4 : redstep_L6 (redstep_L6 (redstep_L6 (redstep_L6 x))) < 2 ^ 256 + 2 ^ 67 * L6val :=
    redstep_L6_lt _ (2 ^ 67) c3 c3'
  have m4 : Nat.ModEq Nval (redstep_L6 (redstep_L6 (redstep_L6 (redstep_L6 x))))
      (redstep_L6 (redstep_L6 (redstep_L6 x))) := redstep_L6_modeq _ c3'
  generalize hr4 : redstep_L6 (redstep_L6 (redstep_L6 (redstep_L6 x))) = r4 at b4 m4 hred
  have hr4lt : r4 < 2 ^ 260 := lt_trans b4 (by decide)
  have mr4 : Nat.ModEq Nval r4 x := ((m4.trans m3).trans m2).trans m1
  -- shift by 6 then L fold
  have e5 : redshift_6 r4 = r4 % 2 ^ 250 + r4 / 2 ^ 250 * 2 ^ 256 := redshift_6_eq r4 hr4lt
  have hb5 : r4 / 2 ^ 250 < 2 ^ 10 := by omega
  have ha5 : r4 % 2 ^ 250 < 2 ^ 250 := by omega
  have s5 := redstep_L_modeq_of_shape (r4 % 2 ^ 250) (r4 / 2 ^ 250) ha5 hb5
  rw [e5] at hred
  have m5 : Nat.ModEq Nval (redstep_L (r4 % 2 ^ 250 + r4 / 2 ^ 250 * 2 ^ 256)) r4 := by
    have heq : r4 % 2 ^ 250 + r4 / 2 ^ 250 * 2 ^ 250 = r4 := by omega
    have := s5.1
    rwa [heq] at this
  have e6 : redstep_L (r4 % 2 ^ 250 + r4 / 2 ^ 250 * 2 ^ 256) =
      r4 % 2 ^ 250 + r4 / 2 ^ 250 * Lval := s5.2
  rw [e6] at hred m5
  -- r5 := value after the first L fold
  have hLv : Lval < 2 ^ 186 := by decide
  have hb5' : r4 / 2 ^ 250 * Lval < 2 ^ 10 * 2 ^ 186 := Nat.mul_lt_mul'' hb5 hLv
  generalize hr5 : r4 % 2 ^ 250 + r4 / 2 ^ 250 * Lval = r5 at hred m5
  have hr5lt : r5 < 2 ^ 250 + 2 ^ 196 := by
    have h : (2 : Nat) ^ 10 * 2 ^ 186 = 2 ^ 196 := by norm_num
    omega
  have hr5lt' : r5 < 2 ^ 251 := by omega
  have mr5 : Nat.ModEq Nval r5 x := m5.trans mr4
  -- shift by 1 then the last L fold
  have e7 : redshift_1 r5 = r5 % 2 ^ 250 + r5 / 2 ^ 250 * 2 ^ 256 := redshift_1_eq r5 hr5lt'
  rw [e7] at hred
  have hb7 : r5 / 2 ^ 250 < 2 ^ 1 := by omega
  have ha7 : r5 % 2 ^ 250 < 2 ^ 250 := by omega
  have s7 := redstep_last_of_shape (r5 % 2 ^ 250) (r5 / 2 ^ 250) ha7 hb7
  have m7 : Nat.ModEq Nval (redstep_last (r5 % 2 ^ 250 + r5 / 2 ^ 250 * 2 ^ 256)) r5 := by
    have heq : r5 % 2 ^ 250 + r5 / 2 ^ 250 * 2 ^ 250 = r5 := by omega
    have h7 := s7.1
    rwa [heq] at h7
  rw [s7.2] at hred m7
  -- final bound and the dropped mod
  have hvlt : r5 % 2 ^ 250 + r5 / 2 ^ 250 * Lval < 2 ^ 250 := by
    rcases (by omega : r5 / 2 ^ 250 = 0 ∨ r5 / 2 ^ 250 = 1) with h | h
    · rw [h]
      omega
    · rw [h]
      have h250 : r5 % 2 ^ 250 = r5 - 2 ^ 250 := by omega
      omega
  have hfin : (r5 % 2 ^ 250 + r5 / 2 ^ 250 * Lval) % 2 ^ 256 =
      r5 % 2 ^ 250 + r5 / 2 ^ 250 * Lval := Nat.mod_eq_of_lt (by omega)
  rw [hfin] at hred
  rw [hred]
  exact ⟨m7.trans mr5, hvlt⟩

/-- Claim C3, counterexample: on the 512-bit input N itself, `large_red`
returns N, which is congruent to 0 but is not in [0, N); the output is
not always the canonical representative. -/
theorem claim_C3_counterexample :
    large_red Nval = Nval ∧ ¬ large_red Nval < Nval := by decide

/-- Claim C3, amended: for every 512-bit input x, `large_red x` is
congruent to x modulo N and is less than 2^250 (so the top 6 bits of the
256-bit output are zero); it need not be the canonical representative. -/
theorem claim_C3_theorem (x : Nat) (hx : x < 2 ^ 512) :
    Nat.ModEq Nval (large_red x) x ∧ large_red x < 2 ^ 250 :=
  large_red_spec x hx

/-- Claim C3, witness at the input 2^511. -/
theorem claim_C3_witness :
    (2 ^ 511 : Nat) < 2 ^ 512 ∧
    (Nat.ModEq Nval (large_red (2 ^ 511)) (2 ^ 511) ∧ large_red (2 ^ 511) < 2 ^ 250) :=
  ⟨by norm_num, claim_C3_theorem (2 ^ 511) (by norm_num)⟩

/- ----------------------------------------------------------------------
Concrete end-to-end validation of the embedding: the CONF_QDSA_FULL
signer and the verifier agree on a concrete seed and message, and the
compression round-trip holds on the concrete keypair point. The ladders
are forced in 50-iteration chunks.
---------------------------------------------------------------------- -/

/-- Splitting the ladder loop: running a + b iterations is running the
first a iterations on the scalar shifted right by b (those iterations
read bit indices a+b-1 down to b) and then the remaining b iterations on
the full scalar from the reached state. -/
theorem ladder_loop_append (a b : Nat) (xd : kpoint) (n : Nat) :
    ∀ (xp xq : kpoint) (pb : Nat),
    ladder_loop (a + b) xp xq xd n pb =
      ladder_loop b (ladder_loop a xp xq xd (n >>> b) pb).1
        (ladder_loop a xp xq xd (n >>> b) pb).2.1 xd n
        (ladder_loop a xp xq xd (n >>> b) pb).2.2 := by
  induction a with
  | zero =>
    intro xp xq pb
    rw [Nat.zero_add]
    rfl
  | succ a ih =>
    intro xp xq pb
    have h : a + 1 + b = (a + b) + 1 := by omega
    rw [h]
    show ladder_loop ((a + b) + 1) xp xq xd n pb = _
    simp only [ladder_loop]
    have hbit : (n >>> b).testBit a = n.testBit (a + b) := by
      rw [Nat.testBit_shiftRight, Nat.add_comm]
    rw [hbit]
    exact ih _ _ _

/-- Unfolds `ladder_250` given the value of its 251-iteration loop. -/
theorem ladder_250_congr (xq xd : kpoint) (n : Nat) (s : kpoint × kpoint × Nat)
    (h : ladder_loop 251 ladder_init xq xd n 0 = s) :
    ladder_250 xq xd n =
      (if s.2.2 ≠ 0 then wam_swap { s.1 with X := fe1271_neg s.1.X } s.2.1
       else ({ s.1 with X := fe1271_neg s.1.X }, s.2.1)) := by
  simp only [ladder_250]
  rw [h]

/-- Value of the 64-byte pseudo-random secret derived by `qdsa_keypair`
from the all-zero seed. -/
theorem ex_sk : (bobjr_finish_wa (bobjr_absorb_wa bobjr_init seed0 32)).state.take 64 = [46, 35, 91, 170, 98, 185, 67, 140, 86, 88, 50, 77, 160, 198, 247, 55, 153, 63, 160, 171, 236, 31, 201, 84, 138, 109, 138, 45, 207, 190, 9, 174, 161, 195, 159, 5, 123, 63, 137, 245, 70, 98, 39, 222, 163, 25, 61, 54, 133, 237, 76, 109, 118, 151, 172, 75, 223, 56, 90, 44, 37, 22, 18, 110] := by decide

/-- Value of the keypair secret scalar d-prime. -/
theorem ex_s0 : scalar_get32 (bytesVal (([46, 35, 91, 170, 98, 185, 67, 140, 86, 88, 50, 77, 160, 198, 247, 55, 153, 63, 160, 171, 236, 31, 201, 84, 138, 109, 138, 45, 207, 190, 9, 174, 161, 195, 159, 5, 123, 63, 137, 245, 70, 98, 39, 222, 163, 25, 61, 54, 133, 237, 76, 109, 118, 151, 172, 75, 223, 56, 90, 44, 37, 22, 18, 110].drop 32).take 32)) = 936581784941055849914836647218617137569065323656675540263206137215731392144 := by decide

/-- The keypair base-point ladder, evaluated in 50-iteration chunks via
`ladder_loop_append`. -/
theorem ex_ladK : ladder_base_250 936581784941055849914836647218617137569065323656675540263206137215731392144 = (⟨4859964721450143379865513861007158424, 35708822515074550951850020965418179981, 85012839986782111094429222547616194053, 115401392875397731679702751942198111984⟩ : kpoint) := by
  have c1 : ladder_loop 50 ladder_init (xUNWRAP bpw) bpw (936581784941055849914836647218617137569065323656675540263206137215731392144 >>> 201) 0 = ((⟨94430282119695325662181052490829910684, 112880526583900963745066290508488475708, 46193566258944841117998835744272215210, 119086910285093065823489482615366244227⟩ : kpoint), (⟨164754461675884337871362818096368284853, 143678380473524961777604062634118980968, 138639526551097199021609840557986433318, 40364024384718677105530491177413896547⟩ : kpoint), 0) := by decide
  have c2 : ladder_loop 50 (⟨94430282119695325662181052490829910684, 112880526583900963745066290508488475708, 46193566258944841117998835744272215210, 119086910285093065823489482615366244227⟩ : kpoint) (⟨164754461675884337871362818096368284853, 143678380473524961777604062634118980968, 138639526551097199021609840557986433318, 40364024384718677105530491177413896547⟩ : kpoint) bpw (936581784941055849914836647218617137569065323656675540263206137215731392144 >>> 151) 0 = ((⟨38867200623939355443532091080824318659, 5238532881594301699040820359318634981, 85616625693696224473766407989566527066, 49879554152247157478614643385049722489⟩ : kpoint), (⟨111519011245955289973386224061215670966, 46835288145808328243412698867505275818, 81981501569169272730121026531487159636, 58338210027959238686678773088268131090⟩ : kpoint), 0) := by decide
  have c3 : ladder_loop 50 (⟨38867200623939355443532091080824318659, 5238532881594301699040820359318634981, 85616625693696224473766407989566527066, 49879554152247157478614643385049722489⟩ : kpoint) (⟨111519011245955289973386224061215670966, 46835288145808328243412698867505275818, 81981501569169272730121026531487159636, 58338210027959238686678773088268131090⟩ : kpoint) bpw (936581784941055849914836647218617137569065323656675540263206137215731392144 >>> 101) 0 = ((⟨94394832115333162067743071205472484456, 71853460636822572874954344264827490554, 648986498615764723273155142819131336, 169062385022344850054349334888723094597⟩ : kpoint), (⟨29870893555043070702190780798285989154, 118151067654940145433057176155486808780, 55599989548400707684983816186636409921, 111656660887776428912112553061289183238⟩ : kpoint), 1) := by decide
  have c4 : ladder_loop 50 (⟨94394832115333162067743071205472484456, 71853460636822572874954344264827490554, 648986498615764723273155142819131336, 169062385022344850054349334888723094597⟩ : kpoint) (⟨29870893555043070702190780798285989154, 118151067654940145433057176155486808780, 55599989548400707684983816186636409921, 111656660887776428912112553061289183238⟩ : kpoint) bpw (936581784941055849914836647218617137569065323656675540263206137215731392144 >>> 51) 1 = ((⟨83366108484328116745155006100842245322, 95569991390225672069736358543773887720, 7712154700274762345312977505018382720, 18347301237635642879027083645164644282⟩ : kpoint), (⟨26404978494446168915202201976257358711, 146327166930910782843152692497734949745, 87982792200639775660167102221334400883, 98529215864806369915923753530251069990⟩ : kpoint), 1) := by decide
  have c5 : ladder_loop 50 (⟨83366108484328116745155006100842245322, 95569991390225672069736358543773887720, 7712154700274762345312977505018382720, 18347301237635642879027083645164644282⟩ : kpoint) (⟨26404978494446168915202201976257358711, 146327166930910782843152692497734949745, 87982792200639775660167102221334400883, 98529215864806369915923753530251069990⟩ : kpoint) bpw (936581784941055849914836647218617137569065323656675540263206137215731392144 >>> 1) 1 = ((⟨153400570610684643365726870314678316543, 124439879690324757613706737541654812045, 31131987111232667699157443671026628693, 9427777733644821746140842602797871856⟩ : kpoint), (⟨77238460004624491982647378582839756660, 22469439481319739874318640582073476541, 68930691491213656372262742421692972780, 38983520080989818279880561729098254860⟩ : kpoint), 0) := by decide
  have c6 : ladder_loop 1 (⟨153400570610684643365726870314678316543, 124439879690324757613706737541654812045, 31131987111232667699157443671026628693, 9427777733644821746140842602797871856⟩ : kpoint) (⟨77238460004624491982647378582839756660, 22469439481319739874318640582073476541, 68930691491213656372262742421692972780, 38983520080989818279880561729098254860⟩ : kpoint) bpw 936581784941055849914836647218617137569065323656675540263206137215731392144 0 = ((⟨165281218739019088351821789854876947303, 35708822515074550951850020965418179981, 85012839986782111094429222547616194053, 115401392875397731679702751942198111984⟩ : kpoint), (⟨85292015818574433527195682879895254790, 127948307468854473084116632908999157351, 108284284534773333210365951744977564836, 96001158408792525262920851317036344946⟩ : kpoint), 0) := by decide
  have hl : ladder_loop 251 ladder_init (xUNWRAP bpw) bpw 936581784941055849914836647218617137569065323656675540263206137215731392144 0 = ((⟨165281218739019088351821789854876947303, 35708822515074550951850020965418179981, 85012839986782111094429222547616194053, 115401392875397731679702751942198111984⟩ : kpoint), (⟨85292015818574433527195682879895254790, 127948307468854473084116632908999157351, 108284284534773333210365951744977564836, 96001158408792525262920851317036344946⟩ : kpoint), 0) := by
    rw [show (251 : Nat) = 50 + 201 by norm_num, ladder_loop_append, c1]
    show ladder_loop 201 (⟨94430282119695325662181052490829910684, 112880526583900963745066290508488475708, 46193566258944841117998835744272215210, 119086910285093065823489482615366244227⟩ : kpoint) (⟨164754461675884337871362818096368284853, 143678380473524961777604062634118980968, 138639526551097199021609840557986433318, 40364024384718677105530491177413896547⟩ : kpoint) bpw 936581784941055849914836647218617137569065323656675540263206137215731392144 0 = _
    rw [show (201 : Nat) = 50 + 151 by norm_num, ladder_loop_append, c2]
    show ladder_loop 151 (⟨38867200623939355443532091080824318659, 5238532881594301699040820359318634981, 85616625693696224473766407989566527066, 49879554152247157478614643385049722489⟩ : kpoint) (⟨111519011245955289973386224061215670966, 46835288145808328243412698867505275818, 81981501569169272730121026531487159636, 58338210027959238686678773088268131090⟩ : kpoint) bpw 936581784941055849914836647218617137569065323656675540263206137215731392144 0 = _
    rw [show (151 : Nat) = 50 + 101 by norm_num, ladder_loop_append, c3]
    show ladder_loop 101 (⟨94394832115333162067743071205472484456, 71853460636822572874954344264827490554, 648986498615764723273155142819131336, 169062385022344850054349334888723094597⟩ : kpoint) (⟨29870893555043070702190780798285989154, 118151067654940145433057176155486808780, 55599989548400707684983816186636409921, 111656660887776428912112553061289183238⟩ : kpoint) bpw 936581784941055849914836647218617137569065323656675540263206137215731392144 1 = _
    rw [show (101 : Nat) = 50 + 51 by norm_num, ladder_loop_append, c4]
    show ladder_loop 51 (⟨83366108484328116745155006100842245322, 95569991390225672069736358543773887720, 7712154700274762345312977505018382720, 18347301237635642879027083645164644282⟩ : kpoint) (⟨26404978494446168915202201976257358711, 146327166930910782843152692497734949745, 87982792200639775660167102221334400883, 98529215864806369915923753530251069990⟩ : kpoint) bpw 936581784941055849914836647218617137569065323656675540263206137215731392144 1 = _
    rw [show (51 : Nat) = 50 + 1 by norm_num, ladder_loop_append, c5]
    show ladder_loop 1 (⟨153400570610684643365726870314678316543, 124439879690324757613706737541654812045, 31131987111232667699157443671026628693, 9427777733644821746140842602797871856⟩ : kpoint) (⟨77238460004624491982647378582839756660, 22469439481319739874318640582073476541, 68930691491213656372262742421692972780, 38983520080989818279880561729098254860⟩ : kpoint) bpw 936581784941055849914836647218617137569065323656675540263206137215731392144 0 = _
    exact c6
  have h2 := ladder_250_congr (xUNWRAP bpw) bpw 936581784941055849914836647218617137569065323656675540263206137215731392144 ((⟨165281218739019088351821789854876947303, 35708822515074550951850020965418179981, 85012839986782111094429222547616194053, 115401392875397731679702751942198111984⟩ : kpoint), (⟨85292015818574433527195682879895254790, 127948307468854473084116632908999157351, 108284284534773333210365951744977564836, 96001158408792525262920851317036344946⟩ : kpoint), 0) hl
  have h3 : ladder_base_250 936581784941055849914836647218617137569065323656675540263206137215731392144 = (ladder_250 (xUNWRAP bpw) bpw 936581784941055849914836647218617137569065323656675540263206137215731392144).1 := rfl
  rw [h3, h2]
  decide

/-- First packed half of the compressed keypair point. -/
theorem ex_compK1 : (compress (⟨4859964721450143379865513861007158424, 35708822515074550951850020965418179981, 85012839986782111094429222547616194053, 115401392875397731679702751942198111984⟩ : kpoint)).1 = 313898540426195397612372098200344884568 := by decide

/-- Second packed half of the compressed keypair point. -/
theorem ex_compK2 : (compress (⟨4859964721450143379865513861007158424, 35708822515074550951850020965418179981, 85012839986782111094429222547616194053, 115401392875397731679702751942198111984⟩ : kpoint)).2 = 328232360932712734572522027405704879293 := by decide

/-- `qdsa_keypair` on the all-zero seed, fully evaluated. -/
theorem ex_kp : qdsa_keypair seed0 = ([88, 117, 78, 153, 204, 98, 249, 167, 57, 161, 121, 248, 235, 168, 38, 236, 189, 220, 62, 154, 133, 197, 96, 168, 60, 202, 47, 228, 213, 64, 239, 246], [46, 35, 91, 170, 98, 185, 67, 140, 86, 88, 50, 77, 160, 198, 247, 55, 153, 63, 160, 171, 236, 31, 201, 84, 138, 109, 138, 45, 207, 190, 9, 174, 161, 195, 159, 5, 123, 63, 137, 245, 70, 98, 39, 222, 163, 25, 61, 54, 133, 237, 76, 109, 118, 151, 172, 75, 223, 56, 90, 44, 37, 22, 18, 110]) := by
  have he : qdsa_keypair seed0 = (natBytes (compress (ladder_base_250 (scalar_get32 (bytesVal ((((bobjr_finish_wa (bobjr_absorb_wa bobjr_init seed0 32)).state.take 64).drop 32).take 32))))).1 16 ++ natBytes (compress (ladder_base_250 (scalar_get32 (bytesVal ((((bobjr_finish_wa (bobjr_absorb_wa bobjr_init seed0 32)).state.take 64).drop 32).take 32))))).2 16, (bobjr_finish_wa (bobjr_absorb_wa bobjr_init seed0 32)).state.take 64) := rfl
  rw [he, ex_sk, ex_s0, ex_ladK, ex_compK1, ex_compK2]
  decide

/-- The per-signature secret scalar r = H(d-doubleprime, msg0) mod N. -/
theorem ex_signhash : large_red (bytesVal ((bobjr_finish_wa (bobjr_absorb_wa (bobjr_absorb_wa bobjr_init ([46, 35, 91, 170, 98, 185, 67, 140, 86, 88, 50, 77, 160, 198, 247, 55, 153, 63, 160, 171, 236, 31, 201, 84, 138, 109, 138, 45, 207, 190, 9, 174, 161, 195, 159, 5, 123, 63, 137, 245, 70, 98, 39, 222, 163, 25, 61, 54, 133, 237, 76, 109, 118, 151, 172, 75, 223, 56, 90, 44, 37, 22, 18, 110].take 32) 32) msg0 32)).state.take 64)) = 1097214943970621527415470638485413713211661016626164200529406083701661847627 := by decide

/-- The signing base-point ladder, in chunks. -/
theorem ex_ladS : ladder_base_250 1097214943970621527415470638485413713211661016626164200529406083701661847627 = (⟨150403441029756283269828017755357291828, 77104372376643428857459532686805883298, 24355109740129731731814339616344755806, 115270299022410214558169820856950825329⟩ : kpoint) := by
  have c1 : ladder_loop 50 ladder_init (xUNWRAP bpw) bpw (1097214943970621527415470638485413713211661016626164200529406083701661847627 >>> 201) 0 = ((⟨167252309521452927778176991839644741686, 169080007927168591563069393632030124158, 135474948257969528482107046670229156051, 31622136960731804808220594575145780038⟩ : kpoint), (⟨91323905156581904407788735768931016529, 54471991060932094012401346822388535892, 15729284448063739832517504618876019107, 26895260029825123447217677347210920586⟩ : kpoint), 0) := by decide
  have c2 : ladder_loop 50 (⟨167252309521452927778176991839644741686, 169080007927168591563069393632030124158, 135474948257969528482107046670229156051, 31622136960731804808220594575145780038⟩ : kpoint) (⟨91323905156581904407788735768931016529, 54471991060932094012401346822388535892, 15729284448063739832517504618876019107, 26895260029825123447217677347210920586⟩ : kpoint) bpw (1097214943970621527415470638485413713211661016626164200529406083701661847627 >>> 151) 0 = ((⟨150908751838307304049214466605658861407, 113823620722884911042180336570258837885, 144985749847802247935055590132913656724, 87747460757869014861214659484690609703⟩ : kpoint), (⟨157679356399592094545419513932471166035, 87678957691141286376433999426464189937, 27384730346981543253689716789578102865, 3631329426089327500174679649757857376⟩ : kpoint), 1) := by decide
  have c3 : ladder_loop 50 (⟨150908751838307304049214466605658861407, 113823620722884911042180336570258837885, 144985749847802247935055590132913656724, 87747460757869014861214659484690609703⟩ : kpoint) (⟨157679356399592094545419513932471166035, 87678957691141286376433999426464189937, 27384730346981543253689716789578102865, 3631329426089327500174679649757857376⟩ : kpoint) bpw (1097214943970621527415470638485413713211661016626164200529406083701661847627 >>> 101) 1 = ((⟨75227157009280138753891766258669077766, 26511931147919060679246632289342963601, 145510544296776194477452843578167923951, 69002897747518117878625778837764816432⟩ : kpoint), (⟨97162411062746453780635054772193560736, 42954511811110628856601040992278180964, 3603200100893264141958553368628212093, 110079534779372277073143826244996726479⟩ : kpoint), 1) := by decide
  have c4 : ladder_loop 50 (⟨75227157009280138753891766258669077766, 26511931147919060679246632289342963601, 145510544296776194477452843578167923951, 69002897747518117878625778837764816432⟩ : kpoint) (⟨97162411062746453780635054772193560736, 42954511811110628856601040992278180964, 3603200100893264141958553368628212093, 110079534779372277073143826244996726479⟩ : kpoint) bpw (1097214943970621527415470638485413713211661016626164200529406083701661847627 >>> 51) 1 = ((⟨82005140229509046793219236683265226994, 68730994256636359714396547646852517155, 96269030251120663890633755780839540414, 19531001280822624903107730415118344794⟩ : kpoint), (⟨134736157298717286766927215602080335532, 53772337195450401091296496015088531090, 96712376966558511679284754648885532628, 696090972722919470472186604460051277⟩ : kpoint), 1) := by decide
  have c5 : ladder_loop 50 (⟨82005140229509046793219236683265226994, 68730994256636359714396547646852517155, 96269030251120663890633755780839540414, 19531001280822624903107730415118344794⟩ : kpoint) (⟨134736157298717286766927215602080335532, 53772337195450401091296496015088531090, 96712376966558511679284754648885532628, 696090972722919470472186604460051277⟩ : kpoint) bpw (1097214943970621527415470638485413713211661016626164200529406083701661847627 >>> 1) 1 = ((⟨26209986679749111911400739910944215477, 1876620182588069128718317562175691493, 107897892967272773215347388249826963612, 146285208759741559505067394360060575645⟩ : kpoint), (⟨104785822716702932613906447298346131853, 44330387647875753325426664891970429560, 149192336746992227674990813672247824584, 81635765238867736278366526843141741856⟩ : kpoint), 1) := by decide
  have c6 : ladder_loop 1 (⟨26209986679749111911400739910944215477, 1876620182588069128718317562175691493, 107897892967272773215347388249826963612, 146285208759741559505067394360060575645⟩ : kpoint) (⟨104785822716702932613906447298346131853, 44330387647875753325426664891970429560, 149192336746992227674990813672247824584, 81635765238867736278366526843141741856⟩ : kpoint) bpw 1097214943970621527415470638485413713211661016626164200529406083701661847627 1 = ((⟨51305837374611311229966558878910420341, 80366455109527949166600548039222010994, 67347886650823500989359394761410238007, 142400914777272970559008679248956039845⟩ : kpoint), (⟨150403441029756283269828017755357291828, 77104372376643428857459532686805883298, 24355109740129731731814339616344755806, 115270299022410214558169820856950825329⟩ : kpoint), 1) := by decide
  have hl : ladder_loop 251 ladder_init (xUNWRAP bpw) bpw 1097214943970621527415470638485413713211661016626164200529406083701661847627 0 = ((⟨51305837374611311229966558878910420341, 80366455109527949166600548039222010994, 67347886650823500989359394761410238007, 142400914777272970559008679248956039845⟩ : kpoint), (⟨150403441029756283269828017755357291828, 77104372376643428857459532686805883298, 24355109740129731731814339616344755806, 115270299022410214558169820856950825329⟩ : kpoint), 1) := by
    rw [show (251 : Nat) = 50 + 201 by norm_num, ladder_loop_append, c1]
    show ladder_loop 201 (⟨167252309521452927778176991839644741686, 169080007927168591563069393632030124158, 135474948257969528482107046670229156051, 31622136960731804808220594575145780038⟩ : kpoint) (⟨91323905156581904407788735768931016529, 54471991060932094012401346822388535892, 15729284448063739832517504618876019107, 26895260029825123447217677347210920586⟩ : kpoint) bpw 1097214943970621527415470638485413713211661016626164200529406083701661847627 0 = _
    rw [show (201 : Nat) = 50 + 151 by norm_num, ladder_loop_append, c2]
    show ladder_loop 151 (⟨150908751838307304049214466605658861407, 113823620722884911042180336570258837885, 144985749847802247935055590132913656724, 87747460757869014861214659484690609703⟩ : kpoint) (⟨157679356399592094545419513932471166035, 87678957691141286376433999426464189937, 27384730346981543253689716789578102865, 3631329426089327500174679649757857376⟩ : kpoint) bpw 1097214943970621527415470638485413713211661016626164200529406083701661847627 1 = _
    rw [show (151 : Nat) = 50 + 101 by norm_num, ladder_loop_append, c3]
    show ladder_loop 101 (⟨75227157009280138753891766258669077766, 26511931147919060679246632289342963601, 145510544296776194477452843578167923951, 69002897747518117878625778837764816432⟩ : kpoint) (⟨97162411062746453780635054772193560736, 42954511811110628856601040992278180964, 3603200100893264141958553368628212093, 110079534779372277073143826244996726479⟩ : kpoint) bpw 1097214943970621527415470638485413713211661016626164200529406083701661847627 1 = _
    rw [show (101 : Nat) = 50 + 51 by norm_num, ladder_loop_append, c4]
    show ladder_loop 51 (⟨82005140229509046793219236683265226994, 68730994256636359714396547646852517155, 96269030251120663890633755780839540414, 19531001280822624903107730415118344794⟩ : kpoint) (⟨134736157298717286766927215602080335532, 53772337195450401091296496015088531090, 96712376966558511679284754648885532628, 696090972722919470472186604460051277⟩ : kpoint) bpw 1097214943970621527415470638485413713211661016626164200529406083701661847627 1 = _
    rw [show (51 : Nat) = 50 + 1 by norm_num, ladder_loop_append, c5]
    show ladder_loop 1 (⟨26209986679749111911400739910944215477, 1876620182588069128718317562175691493, 107897892967272773215347388249826963612, 146285208759741559505067394360060575645⟩ : kpoint) (⟨104785822716702932613906447298346131853, 44330387647875753325426664891970429560, 149192336746992227674990813672247824584, 81635765238867736278366526843141741856⟩ : kpoint) bpw 1097214943970621527415470638485413713211661016626164200529406083701661847627 1 = _
    exact c6
  have h2 := ladder_250_congr (xUNWRAP bpw) bpw 1097214943970621527415470638485413713211661016626164200529406083701661847627 ((⟨51305837374611311229966558878910420341, 80366455109527949166600548039222010994, 67347886650823500989359394761410238007, 142400914777272970559008679248956039845⟩ : kpoint), (⟨150403441029756283269828017755357291828, 77104372376643428857459532686805883298, 24355109740129731731814339616344755806, 115270299022410214558169820856950825329⟩ : kpoint), 1) hl
  have h3 : ladder_base_250 1097214943970621527415470638485413713211661016626164200529406083701661847627 = (ladder_250 (xUNWRAP bpw) bpw 1097214943970621527415470638485413713211661016626164200529406083701661847627).1 := rfl
  rw [h3, h2]
  decide

/-- First packed half of the signature point R = [r]P. -/
theorem ex_compS1 : (compress (⟨150403441029756283269828017755357291828, 77104372376643428857459532686805883298, 24355109740129731731814339616344755806, 115270299022410214558169820856950825329⟩ : kpoint)).1 = 218123335334244076858085727493063109125 := by decide

/-- Second packed half of the signature point. -/
theorem ex_compS2 : (compress (⟨150403441029756283269828017755357291828, 77104372376643428857459532686805883298, 24355109740129731731814339616344755806, 115270299022410214558169820856950825329⟩ : kpoint)).2 = 196263121111087545781840338386687024807 := by decide

/-- The sponge context after absorbing R, Q and the message. -/
theorem ex_habs : bobjr_absorb_wa (bobjr_absorb_wa (bobjr_absorb_wa bobjr_init [5, 234, 42, 100, 124, 166, 166, 165, 36, 123, 129, 47, 188, 6, 25, 164, 167, 222, 78, 163, 12, 210, 15, 133, 33, 116, 94, 25, 246, 230, 166, 147] 32) [88, 117, 78, 153, 204, 98, 249, 167, 57, 161, 121, 248, 235, 168, 38, 236, 189, 220, 62, 154, 133, 197, 96, 168, 60, 202, 47, 228, 213, 64, 239, 246] 32) msg0 32 = ⟨28, [3, 3, 3, 3, 3, 3, 3, 3, 3, 3, 3, 3, 3, 3, 3, 3, 3, 3, 3, 3, 3, 3, 3, 3, 3, 3, 3, 3, 200, 255, 78, 52, 65, 126, 94, 114, 98, 222, 166, 124, 93, 193, 77, 225, 5, 226, 164, 116, 20, 17, 64, 142, 52, 102, 21, 245, 128, 9, 255, 138, 30, 77, 4, 202, 75, 82, 53, 47, 88, 151, 232, 48, 97, 209, 1, 91, 47, 138, 153, 83, 68, 77, 142, 242, 58, 72, 60, 251, 49, 46, 43, 123, 132, 161, 57, 89, 230, 177, 223, 21]⟩ := by decide

/-- The verification scalar h = H(R, Q, msg0) mod N. -/
theorem ex_hrqm : scalar_get_hrqm [5, 234, 42, 100, 124, 166, 166, 165, 36, 123, 129, 47, 188, 6, 25, 164, 167, 222, 78, 163, 12, 210, 15, 133, 33, 116, 94, 25, 246, 230, 166, 147] [88, 117, 78, 153, 204, 98, 249, 167, 57, 161, 121, 248, 235, 168, 38, 236, 189, 220, 62, 154, 133, 197, 96, 168, 60, 202, 47, 228, 213, 64, 239, 246] msg0 = 1760491546693702954327976630863644800228189708152147936164028065180760121682 := by
  have he : scalar_get_hrqm [5, 234, 42, 100, 124, 166, 166, 165, 36, 123, 129, 47, 188, 6, 25, 164, 167, 222, 78, 163, 12, 210, 15, 133, 33, 116, 94, 25, 246, 230, 166, 147] [88, 117, 78, 153, 204, 98, 249, 167, 57, 161, 121, 248, 235, 168, 38, 236, 189, 220, 62, 154, 133, 197, 96, 168, 60, 202, 47, 228, 213, 64, 239, 246] msg0 = large_red (bytesVal ((bobjr_finish_wa (bobjr_absorb_wa (bobjr_absorb_wa (bobjr_absorb_wa bobjr_init [5, 234, 42, 100, 124, 166, 166, 165, 36, 123, 129, 47, 188, 6, 25, 164, 167, 222, 78, 163, 12, 210, 15, 133, 33, 116, 94, 25, 246, 230, 166, 147] 32) [88, 117, 78, 153, 204, 98, 249, 167, 57, 161, 121, 248, 235, 168, 38, 236, 189, 220, 62, 154, 133, 197, 96, 168, 60, 202, 47, 228, 213, 64, 239, 246] 32) msg0 32)).state.take 64)) := rfl
  rw [he, ex_habs]
  decide

/-- The signature scalar s = r - h*d mod N. -/
theorem ex_sops : scalar_ops 1097214943970621527415470638485413713211661016626164200529406083701661847627 1760491546693702954327976630863644800228189708152147936164028065180760121682 936581784941055849914836647218617137569065323656675540263206137215731392144 = 1426832085277635649559107958769755042914545589110605975260104278960979986342 := by decide

/-- `qdsa_sign` of msg0 under the generated keypair, fully evaluated. -/
theorem ex_sig : qdsa_sign msg0 [88, 117, 78, 153, 204, 98, 249, 167, 57, 161, 121, 248, 235, 168, 38, 236, 189, 220, 62, 154, 133, 197, 96, 168, 60, 202, 47, 228, 213, 64, 239, 246] [46, 35, 91, 170, 98, 185, 67, 140, 86, 88, 50, 77, 160, 198, 247, 55, 153, 63, 160, 171, 236, 31, 201, 84, 138, 109, 138, 45, 207, 190, 9, 174, 161, 195, 159, 5, 123, 63, 137, 245, 70, 98, 39, 222, 163, 25, 61, 54, 133, 237, 76, 109, 118, 151, 172, 75, 223, 56, 90, 44, 37, 22, 18, 110] = [5, 234, 42, 100, 124, 166, 166, 165, 36, 123, 129, 47, 188, 6, 25, 164, 167, 222, 78, 163, 12, 210, 15, 133, 33, 116, 94, 25, 246, 230, 166, 147, 166, 71, 178, 236, 90, 156, 246, 64, 128, 92, 188, 71, 1, 20, 179, 139, 99, 96, 56, 183, 117, 115, 117, 29, 206, 215, 147, 119, 239, 142, 39, 3] := by
  have he : qdsa_sign msg0 [88, 117, 78, 153, 204, 98, 249, 167, 57, 161, 121, 248, 235, 168, 38, 236, 189, 220, 62, 154, 133, 197, 96, 168, 60, 202, 47, 228, 213, 64, 239, 246] [46, 35, 91, 170, 98, 185, 67, 140, 86, 88, 50, 77, 160, 198, 247, 55, 153, 63, 160, 171, 236, 31, 201, 84, 138, 109, 138, 45, 207, 190, 9, 174, 161, 195, 159, 5, 123, 63, 137, 245, 70, 98, 39, 222, 163, 25, 61, 54, 133, 237, 76, 109, 118, 151, 172, 75, 223, 56, 90, 44, 37, 22, 18, 110] = (natBytes (compress (ladder_base_250 (large_red (bytesVal ((bobjr_finish_wa (bobjr_absorb_wa (bobjr_absorb_wa bobjr_init ([46, 35, 91, 170, 98, 185, 67, 140, 86, 88, 50, 77, 160, 198, 247, 55, 153, 63, 160, 171, 236, 31, 201, 84, 138, 109, 138, 45, 207, 190, 9, 174, 161, 195, 159, 5, 123, 63, 137, 245, 70, 98, 39, 222, 163, 25, 61, 54, 133, 237, 76, 109, 118, 151, 172, 75, 223, 56, 90, 44, 37, 22, 18, 110].take 32) 32) msg0 32)).state.take 64))))).1 16 ++ natBytes (compress (ladder_base_250 (large_red (bytesVal ((bobjr_finish_wa (bobjr_absorb_wa (bobjr_absorb_wa bobjr_init ([46, 35, 91, 170, 98, 185, 67, 140, 86, 88, 50, 77, 160, 198, 247, 55, 153, 63, 160, 171, 236, 31, 201, 84, 138, 109, 138, 45, 207, 190, 9, 174, 161, 195, 159, 5, 123, 63, 137, 245, 70, 98, 39, 222, 163, 25, 61, 54, 133, 237, 76, 109, 118, 151, 172, 75, 223, 56, 90, 44, 37, 22, 18, 110].take 32) 32) msg0 32)).state.take 64))))).2 16) ++ natBytes (scalar_ops (large_red (bytesVal ((bobjr_finish_wa (bobjr_absorb_wa (bobjr_absorb_wa bobjr_init ([46, 35, 91, 170, 98, 185, 67, 140, 86, 88, 50, 77, 160, 198, 247, 55, 153, 63, 160, 171, 236, 31, 201, 84, 138, 109, 138, 45, 207, 190, 9, 174, 161, 195, 159, 5, 123, 63, 137, 245, 70, 98, 39, 222, 163, 25, 61, 54, 133, 237, 76, 109, 118, 151, 172, 75, 223, 56, 90, 44, 37, 22, 18, 110].take 32) 32) msg0 32)).state.take 64))) (scalar_get_hrqm (natBytes (compress (ladder_base_250 (large_red (bytesVal ((bobjr_finish_wa (bobjr_absorb_wa (bobjr_absorb_wa bobjr_init ([46, 35, 91, 170, 98, 185, 67, 140, 86, 88, 50, 77, 160, 198, 247, 55, 153, 63, 160, 171, 236, 31, 201, 84, 138, 109, 138, 45, 207, 190, 9, 174, 161, 195, 159, 5, 123, 63, 137, 245, 70, 98, 39, 222, 163, 25, 61, 54, 133, 237, 76, 109, 118, 151, 172, 75, 223, 56, 90, 44, 37, 22, 18, 110].take 32) 32) msg0 32)).state.take 64))))).1 16 ++ natBytes (compress (ladder_base_250 (large_red (bytesVal ((bobjr_finish_wa (bobjr_absorb_wa (bobjr_absorb_wa bobjr_init ([46, 35, 91, 170, 98, 185, 67, 140, 86, 88, 50, 77, 160, 198, 247, 55, 153, 63, 160, 171, 236, 31, 201, 84, 138, 109, 138, 45, 207, 190, 9, 174, 161, 195, 159, 5, 123, 63, 137, 245, 70, 98, 39, 222, 163, 25, 61, 54, 133, 237, 76, 109, 118, 151, 172, 75, 223, 56, 90, 44, 37, 22, 18, 110].take 32) 32) msg0 32)).state.take 64))))).2 16) [88, 117, 78, 153, 204, 98, 249, 167, 57, 161, 121, 248, 235, 168, 38, 236, 189, 220, 62, 154, 133, 197, 96, 168, 60, 202, 47, 228, 213, 64, 239, 246] msg0) (scalar_get32 (bytesVal (([46, 35, 91, 170, 98, 185, 67, 140, 86, 88, 50, 77, 160, 198, 247, 55, 153, 63, 160, 171, 236, 31, 201, 84, 138, 109, 138, 45, 207, 190, 9, 174, 161, 195, 159, 5, 123, 63, 137, 245, 70, 98, 39, 222, 163, 25, 61, 54, 133, 237, 76, 109, 118, 151, 172, 75, 223, 56, 90, 44, 37, 22, 18, 110].drop 32).take 32)))) 32 := rfl
  rw [he, ex_signhash, ex_ladS, ex_compS1, ex_compS2]
  have hrx : natBytes 218123335334244076858085727493063109125 16 ++ natBytes 196263121111087545781840338386687024807 16 = [5, 234, 42, 100, 124, 166, 166, 165, 36, 123, 129, 47, 188, 6, 25, 164, 167, 222, 78, 163, 12, 210, 15, 133, 33, 116, 94, 25, 246, 230, 166, 147] := by decide
  rw [hrx, ex_hrqm, ex_s0, ex_sops]
  decide

/-- Decompression of the generated public key succeeds. -/
theorem ex_pkdec : verify_pkDecomp [88, 117, 78, 153, 204, 98, 249, 167, 57, 161, 121, 248, 235, 168, 38, 236, 189, 220, 62, 154, 133, 197, 96, 168, 60, 202, 47, 228, 213, 64, 239, 246] = ⟨0, (⟨120257569961269848561281610293738622823, 162840983133789890034434637275757931778, 38326951456485697526599241074215151180, 79653942286560197681129384125085110299⟩ : kpoint), (⟨166705343820910245507207885047054202531, 99510844118788722275712774105006828631, 76799700295510877933500076365167593625, 158938411024871446656722862233613401278⟩ : kpoint)⟩ := by decide

/-- The wrapped form of the decompressed public key point (proved
per component: the whole-record kernel comparison through the
inversion chain is far slower than the four slot comparisons). -/
theorem ex_wrap : xWRAP (⟨120257569961269848561281610293738622823, 162840983133789890034434637275757931778, 38326951456485697526599241074215151180, 79653942286560197681129384125085110299⟩ : kpoint) = (⟨0, 69685488869767227641843460037234276310, 119193818240810311648047420173170065580, 17810109165254147159850563602194186197⟩ : kpoint) := by
  have hX : (xWRAP (⟨120257569961269848561281610293738622823, 162840983133789890034434637275757931778, 38326951456485697526599241074215151180, 79653942286560197681129384125085110299⟩ : kpoint)).X = 0 := by decide
  have hY : (xWRAP (⟨120257569961269848561281610293738622823, 162840983133789890034434637275757931778, 38326951456485697526599241074215151180, 79653942286560197681129384125085110299⟩ : kpoint)).Y = 69685488869767227641843460037234276310 := by decide
  have hZ : (xWRAP (⟨120257569961269848561281610293738622823, 162840983133789890034434637275757931778, 38326951456485697526599241074215151180, 79653942286560197681129384125085110299⟩ : kpoint)).Z = 119193818240810311648047420173170065580 := by decide
  have hT : (xWRAP (⟨120257569961269848561281610293738622823, 162840983133789890034434637275757931778, 38326951456485697526599241074215151180, 79653942286560197681129384125085110299⟩ : kpoint)).T = 17810109165254147159850563602194186197 := by decide
  have he : xWRAP (⟨120257569961269848561281610293738622823, 162840983133789890034434637275757931778, 38326951456485697526599241074215151180, 79653942286560197681129384125085110299⟩ : kpoint) = ⟨(xWRAP (⟨120257569961269848561281610293738622823, 162840983133789890034434637275757931778, 38326951456485697526599241074215151180, 79653942286560197681129384125085110299⟩ : kpoint)).X, (xWRAP (⟨120257569961269848561281610293738622823, 162840983133789890034434637275757931778, 38326951456485697526599241074215151180, 79653942286560197681129384125085110299⟩ : kpoint)).Y, (xWRAP (⟨120257569961269848561281610293738622823, 162840983133789890034434637275757931778, 38326951456485697526599241074215151180, 79653942286560197681129384125085110299⟩ : kpoint)).Z, (xWRAP (⟨120257569961269848561281610293738622823, 162840983133789890034434637275757931778, 38326951456485697526599241074215151180, 79653942286560197681129384125085110299⟩ : kpoint)).T⟩ := rfl
  rw [he, hX, hY, hZ, hT]

/-- The verifier ladder computing [h]Q, in chunks. -/
theorem ex_ladQ : (ladder_250 (⟨120257569961269848561281610293738622823, 162840983133789890034434637275757931778, 38326951456485697526599241074215151180, 79653942286560197681129384125085110299⟩ : kpoint) (⟨0, 69685488869767227641843460037234276310, 119193818240810311648047420173170065580, 17810109165254147159850563602194186197⟩ : kpoint) 1760491546693702954327976630863644800228189708152147936164028065180760121682).1 = (⟨124928819928087089509449460649947003181, 38452967007765494483347150270634805780, 133479101334075487515043858457842709580, 103872070194137611441717673577908024241⟩ : kpoint) := by
  have c1 : ladder_loop 50 ladder_init (⟨120257569961269848561281610293738622823, 162840983133789890034434637275757931778, 38326951456485697526599241074215151180, 79653942286560197681129384125085110299⟩ : kpoint) (⟨0, 69685488869767227641843460037234276310, 119193818240810311648047420173170065580, 17810109165254147159850563602194186197⟩ : kpoint) (1760491546693702954327976630863644800228189708152147936164028065180760121682 >>> 201) 0 = ((⟨6515632281769927371235927445948877278, 163609404200805705798056326121737437094, 157746233639163651387698427104476598688, 73459135217122771026454244034402752239⟩ : kpoint), (⟨114391729002945110813555709368543637554, 33769470986348738842039542803769647773, 129991822600729085534064918882474149987, 132765016545112337671475787045647314181⟩ : kpoint), 1) := by decide
  have c2 : ladder_loop 50 (⟨6515632281769927371235927445948877278, 163609404200805705798056326121737437094, 157746233639163651387698427104476598688, 73459135217122771026454244034402752239⟩ : kpoint) (⟨114391729002945110813555709368543637554, 33769470986348738842039542803769647773, 129991822600729085534064918882474149987, 132765016545112337671475787045647314181⟩ : kpoint) (⟨0, 69685488869767227641843460037234276310, 119193818240810311648047420173170065580, 17810109165254147159850563602194186197⟩ : kpoint) (1760491546693702954327976630863644800228189708152147936164028065180760121682 >>> 151) 1 = ((⟨40094483830687942056681150042209114873, 132734972872969812444918958091244924952, 36990619625914523911411805585156097702, 158746460737685366007116406975642483869⟩ : kpoint), (⟨118759763123642586683168977757580701758, 128441625064269637156951291830216223422, 127693351794102953252166907857376864911, 97453106089137245571532301112340882872⟩ : kpoint), 0) := by decide
  have c3 : ladder_loop 50 (⟨40094483830687942056681150042209114873, 132734972872969812444918958091244924952, 36990619625914523911411805585156097702, 158746460737685366007116406975642483869⟩ : kpoint) (⟨118759763123642586683168977757580701758, 128441625064269637156951291830216223422, 127693351794102953252166907857376864911, 97453106089137245571532301112340882872⟩ : kpoint) (⟨0, 69685488869767227641843460037234276310, 119193818240810311648047420173170065580, 17810109165254147159850563602194186197⟩ : kpoint) (1760491546693702954327976630863644800228189708152147936164028065180760121682 >>> 101) 0 = ((⟨152334934984138927131714149139766127625, 87327469692288872763287819314131554570, 35880940459068315712876669169371367358, 114514105088276935259931963447329592842⟩ : kpoint), (⟨72661318107996263048370287179735630764, 60402231466913777248445528481625178135, 72508917073859708134486182031604644707, 121555615278548316024630841177915107423⟩ : kpoint), 1) := by decide
  have c4 : ladder_loop 50 (⟨152334934984138927131714149139766127625, 87327469692288872763287819314131554570, 35880940459068315712876669169371367358, 114514105088276935259931963447329592842⟩ : kpoint) (⟨72661318107996263048370287179735630764, 60402231466913777248445528481625178135, 72508917073859708134486182031604644707, 121555615278548316024630841177915107423⟩ : kpoint) (⟨0, 69685488869767227641843460037234276310, 119193818240810311648047420173170065580, 17810109165254147159850563602194186197⟩ : kpoint) (1760491546693702954327976630863644800228189708152147936164028065180760121682 >>> 51) 1 = ((⟨33977530369517802498411537209770935504, 7009315662942907621274223775161827852, 111178094044980695034884361196053446437, 34669112020004753996624874874036522942⟩ : kpoint), (⟨46811402302099536206759065997398606049, 126360335101280748950642114481051263524, 130302048394008380116433613092113984554, 107972131240208724004168898227962651668⟩ : kpoint), 0) := by decide
  have c5 : ladder_loop 50 (⟨33977530369517802498411537209770935504, 7009315662942907621274223775161827852, 111178094044980695034884361196053446437, 34669112020004753996624874874036522942⟩ : kpoint) (⟨46811402302099536206759065997398606049, 126360335101280748950642114481051263524, 130302048394008380116433613092113984554, 107972131240208724004168898227962651668⟩ : kpoint) (⟨0, 69685488869767227641843460037234276310, 119193818240810311648047420173170065580, 17810109165254147159850563602194186197⟩ : kpoint) (1760491546693702954327976630863644800228189708152147936164028065180760121682 >>> 1) 0 = ((⟨130617699299624911752855917331737639274, 59466321924074325318875019762175294935, 58225670068253728027947785988765374907, 125694849668246935532194920325247212507⟩ : kpoint), (⟨57851193335504807100019119961472413988, 164112241932668388712415185978577921933, 68583869813779608223948135085159546404, 31451534650798349486437907689072603949⟩ : kpoint), 1) := by decide
  have c6 : ladder_loop 1 (⟨130617699299624911752855917331737639274, 59466321924074325318875019762175294935, 58225670068253728027947785988765374907, 125694849668246935532194920325247212507⟩ : kpoint) (⟨57851193335504807100019119961472413988, 164112241932668388712415185978577921933, 68583869813779608223948135085159546404, 31451534650798349486437907689072603949⟩ : kpoint) (⟨0, 69685488869767227641843460037234276310, 119193818240810311648047420173170065580, 17810109165254147159850563602194186197⟩ : kpoint) 1760491546693702954327976630863644800228189708152147936164028065180760121682 1 = ((⟨45212363532382142222237843065937102546, 38452967007765494483347150270634805780, 133479101334075487515043858457842709580, 103872070194137611441717673577908024241⟩ : kpoint), (⟨5120909453285688418375094652576373988, 58966981152812279034395633084568053117, 82599246785770525784495807447414717186, 125829495491817033770991603823707672155⟩ : kpoint), 0) := by decide
  have hl : ladder_loop 251 ladder_init (⟨120257569961269848561281610293738622823, 162840983133789890034434637275757931778, 38326951456485697526599241074215151180, 79653942286560197681129384125085110299⟩ : kpoint) (⟨0, 69685488869767227641843460037234276310, 119193818240810311648047420173170065580, 17810109165254147159850563602194186197⟩ : kpoint) 1760491546693702954327976630863644800228189708152147936164028065180760121682 0 = ((⟨45212363532382142222237843065937102546, 38452967007765494483347150270634805780, 133479101334075487515043858457842709580, 103872070194137611441717673577908024241⟩ : kpoint), (⟨5120909453285688418375094652576373988, 58966981152812279034395633084568053117, 82599246785770525784495807447414717186, 125829495491817033770991603823707672155⟩ : kpoint), 0) := by
    rw [show (251 : Nat) = 50 + 201 by norm_num, ladder_loop_append, c1]
    show ladder_loop 201 (⟨6515632281769927371235927445948877278, 163609404200805705798056326121737437094, 157746233639163651387698427104476598688, 73459135217122771026454244034402752239⟩ : kpoint) (⟨114391729002945110813555709368543637554, 33769470986348738842039542803769647773, 129991822600729085534064918882474149987, 132765016545112337671475787045647314181⟩ : kpoint) (⟨0, 69685488869767227641843460037234276310, 119193818240810311648047420173170065580, 17810109165254147159850563602194186197⟩ : kpoint) 1760491546693702954327976630863644800228189708152147936164028065180760121682 1 = _
    rw [show (201 : Nat) = 50 + 151 by norm_num, ladder_loop_append, c2]
    show ladder_loop 151 (⟨40094483830687942056681150042209114873, 132734972872969812444918958091244924952, 36990619625914523911411805585156097702, 158746460737685366007116406975642483869⟩ : kpoint) (⟨118759763123642586683168977757580701758, 128441625064269637156951291830216223422, 127693351794102953252166907857376864911, 97453106089137245571532301112340882872⟩ : kpoint) (⟨0, 69685488869767227641843460037234276310, 119193818240810311648047420173170065580, 17810109165254147159850563602194186197⟩ : kpoint) 1760491546693702954327976630863644800228189708152147936164028065180760121682 0 = _
    rw [show (151 : Nat) = 50 + 101 by norm_num, ladder_loop_append, c3]
    show ladder_loop 101 (⟨152334934984138927131714149139766127625, 87327469692288872763287819314131554570, 35880940459068315712876669169371367358, 114514105088276935259931963447329592842⟩ : kpoint) (⟨72661318107996263048370287179735630764, 60402231466913777248445528481625178135, 72508917073859708134486182031604644707, 121555615278548316024630841177915107423⟩ : kpoint) (⟨0, 69685488869767227641843460037234276310, 119193818240810311648047420173170065580, 17810109165254147159850563602194186197⟩ : kpoint) 1760491546693702954327976630863644800228189708152147936164028065180760121682 1 = _
    rw [show (101 : Nat) = 50 + 51 by norm_num, ladder_loop_append, c4]
    show ladder_loop 51 (⟨33977530369517802498411537209770935504, 7009315662942907621274223775161827852, 111178094044980695034884361196053446437, 34669112020004753996624874874036522942⟩ : kpoint) (⟨46811402302099536206759065997398606049, 126360335101280748950642114481051263524, 130302048394008380116433613092113984554, 107972131240208724004168898227962651668⟩ : kpoint) (⟨0, 69685488869767227641843460037234276310, 119193818240810311648047420173170065580, 17810109165254147159850563602194186197⟩ : kpoint) 1760491546693702954327976630863644800228189708152147936164028065180760121682 0 = _
    rw [show (51 : Nat) = 50 + 1 by norm_num, ladder_loop_append, c5]
    show ladder_loop 1 (⟨130617699299624911752855917331737639274, 59466321924074325318875019762175294935, 58225670068253728027947785988765374907, 125694849668246935532194920325247212507⟩ : kpoint) (⟨57851193335504807100019119961472413988, 164112241932668388712415185978577921933, 68583869813779608223948135085159546404, 31451534650798349486437907689072603949⟩ : kpoint) (⟨0, 69685488869767227641843460037234276310, 119193818240810311648047420173170065580, 17810109165254147159850563602194186197⟩ : kpoint) 1760491546693702954327976630863644800228189708152147936164028065180760121682 1 = _
    exact c6
  have h2 := ladder_250_congr (⟨120257569961269848561281610293738622823, 162840983133789890034434637275757931778, 38326951456485697526599241074215151180, 79653942286560197681129384125085110299⟩ : kpoint) (⟨0, 69685488869767227641843460037234276310, 119193818240810311648047420173170065580, 17810109165254147159850563602194186197⟩ : kpoint) 1760491546693702954327976630863644800228189708152147936164028065180760121682 ((⟨45212363532382142222237843065937102546, 38452967007765494483347150270634805780, 133479101334075487515043858457842709580, 103872070194137611441717673577908024241⟩ : kpoint), (⟨5120909453285688418375094652576373988, 58966981152812279034395633084568053117, 82599246785770525784495807447414717186, 125829495491817033770991603823707672155⟩ : kpoint), 0) hl
  rw [h2]
  decide

/-- The scalar s parsed back from the generated signature. -/
theorem ex_sv : verify_s [5, 234, 42, 100, 124, 166, 166, 165, 36, 123, 129, 47, 188, 6, 25, 164, 167, 222, 78, 163, 12, 210, 15, 133, 33, 116, 94, 25, 246, 230, 166, 147, 166, 71, 178, 236, 90, 156, 246, 64, 128, 92, 188, 71, 1, 20, 179, 139, 99, 96, 56, 183, 117, 115, 117, 29, 206, 215, 147, 119, 239, 142, 39, 3] = 1426832085277635649559107958769755042914545589110605975260104278960979986342 := by decide

/-- The verifier ladder computing [s]P, in chunks. -/
theorem ex_ladP : ladder_base_250 1426832085277635649559107958769755042914545589110605975260104278960979986342 = (⟨170054958430058895747173702335058236887, 53492661954871306275378426445504686664, 57803840602889064331212240600300899144, 56746806064508331911470306626417088613⟩ : kpoint) := by
  have c1 : ladder_loop 50 ladder_init (xUNWRAP bpw) bpw (1426832085277635649559107958769755042914545589110605975260104278960979986342 >>> 201) 0 = ((⟨165690044301038472638570573306105980194, 5266660612714647574668970995236037932, 79595611323279493468409034933715014073, 2927556488194088645031370143021751309⟩ : kpoint), (⟨53155517643950761034938031324304739612, 140493256512976014806764870504159699804, 143579946409307159075153670023168845022, 16896380757816084183793900081560040124⟩ : kpoint), 1) := by decide
  have c2 : ladder_loop 50 (⟨165690044301038472638570573306105980194, 5266660612714647574668970995236037932, 79595611323279493468409034933715014073, 2927556488194088645031370143021751309⟩ : kpoint) (⟨53155517643950761034938031324304739612, 140493256512976014806764870504159699804, 143579946409307159075153670023168845022, 16896380757816084183793900081560040124⟩ : kpoint) bpw (1426832085277635649559107958769755042914545589110605975260104278960979986342 >>> 151) 1 = ((⟨12282151290309953703825197037410063028, 123660647625568622355326048121573997029, 110831322993515951549432849381397944665, 62419343772962358463957101344486125291⟩ : kpoint), (⟨24678911510416383386745405497791817376, 42082402743889733044784664275593752364, 10180294903546405629516824877558727022, 102068013025737556961598343194763785143⟩ : kpoint), 0) := by decide
  have c3 : ladder_loop 50 (⟨12282151290309953703825197037410063028, 123660647625568622355326048121573997029, 110831322993515951549432849381397944665, 62419343772962358463957101344486125291⟩ : kpoint) (⟨24678911510416383386745405497791817376, 42082402743889733044784664275593752364, 10180294903546405629516824877558727022, 102068013025737556961598343194763785143⟩ : kpoint) bpw (1426832085277635649559107958769755042914545589110605975260104278960979986342 >>> 101) 0 = ((⟨116558424897297172364881964651759895258, 24416639491724102653739228594310765271, 69977723981006913322571923819071286596, 103385479706591475208830833322745296132⟩ : kpoint), (⟨109770600967296597964692249037091318854, 22768002225205362311224622263207005509, 151013461076585183301771411947368895709, 155062247681858910116122314200081279681⟩ : kpoint), 0) := by decide
  have c4 : ladder_loop 50 (⟨116558424897297172364881964651759895258, 24416639491724102653739228594310765271, 69977723981006913322571923819071286596, 103385479706591475208830833322745296132⟩ : kpoint) (⟨109770600967296597964692249037091318854, 22768002225205362311224622263207005509, 151013461076585183301771411947368895709, 155062247681858910116122314200081279681⟩ : kpoint) bpw (1426832085277635649559107958769755042914545589110605975260104278960979986342 >>> 51) 0 = ((⟨138311943299707448172346219128071419375, 20645113121588736873155562336829453051, 78025993591889965469317666478059369402, 165867014588166104347108553944721795180⟩ : kpoint), (⟨99016748238924006527399826159506810923, 148528312499717602937686554230391010587, 67331763751233045340414669982386203144, 15720151510529127575851788327607735916⟩ : kpoint), 0) := by decide
  have c5 : ladder_loop 50 (⟨138311943299707448172346219128071419375, 20645113121588736873155562336829453051, 78025993591889965469317666478059369402, 165867014588166104347108553944721795180⟩ : kpoint) (⟨99016748238924006527399826159506810923, 148528312499717602937686554230391010587, 67331763751233045340414669982386203144, 15720151510529127575851788327607735916⟩ : kpoint) bpw (1426832085277635649559107958769755042914545589110605975260104278960979986342 >>> 1) 0 = ((⟨134559554073368298504849149363162993653, 83561422580844134079229478643479914173, 73157045625122596482088305871691266859, 45413249093877134048619574715118330157⟩ : kpoint), (⟨75727997730576031374589625589813999792, 69750231720784275959625336425273730643, 133209130976304078809012834189152171997, 121354234709391437931549602982857767491⟩ : kpoint), 1) := by decide
  have c6 : ladder_loop 1 (⟨134559554073368298504849149363162993653, 83561422580844134079229478643479914173, 73157045625122596482088305871691266859, 45413249093877134048619574715118330157⟩ : kpoint) (⟨75727997730576031374589625589813999792, 69750231720784275959625336425273730643, 133209130976304078809012834189152171997, 121354234709391437931549602982857767491⟩ : kpoint) bpw 1426832085277635649559107958769755042914545589110605975260104278960979986342 1 = ((⟨86225030410335984513601380825868840, 53492661954871306275378426445504686664, 57803840602889064331212240600300899144, 56746806064508331911470306626417088613⟩ : kpoint), (⟨119873839010031428244063350556906349434, 72166548491976772611638163722030104327, 46410194911385584115872769523619426118, 1168810090283779310686600073469809599⟩ : kpoint), 0) := by decide
  have hl : ladder_loop 251 ladder_init (xUNWRAP bpw) bpw 1426832085277635649559107958769755042914545589110605975260104278960979986342 0 = ((⟨86225030410335984513601380825868840, 53492661954871306275378426445504686664, 57803840602889064331212240600300899144, 56746806064508331911470306626417088613⟩ : kpoint), (⟨119873839010031428244063350556906349434, 72166548491976772611638163722030104327, 46410194911385584115872769523619426118, 1168810090283779310686600073469809599⟩ : kpoint), 0) := by
    rw [show (251 : Nat) = 50 + 201 by norm_num, ladder_loop_append, c1]
    show ladder_loop 201 (⟨165690044301038472638570573306105980194, 5266660612714647574668970995236037932, 79595611323279493468409034933715014073, 2927556488194088645031370143021751309⟩ : kpoint) (⟨53155517643950761034938031324304739612, 140493256512976014806764870504159699804, 143579946409307159075153670023168845022, 16896380757816084183793900081560040124⟩ : kpoint) bpw 1426832085277635649559107958769755042914545589110605975260104278960979986342 1 = _
    rw [show (201 : Nat) = 50 + 151 by norm_num, ladder_loop_append, c2]
    show ladder_loop 151 (⟨12282151290309953703825197037410063028, 123660647625568622355326048121573997029, 110831322993515951549432849381397944665, 62419343772962358463957101344486125291⟩ : kpoint) (⟨24678911510416383386745405497791817376, 42082402743889733044784664275593752364, 10180294903546405629516824877558727022, 102068013025737556961598343194763785143⟩ : kpoint) bpw 1426832085277635649559107958769755042914545589110605975260104278960979986342 0 = _
    rw [show (151 : Nat) = 50 + 101 by norm_num, ladder_loop_append, c3]
    show ladder_loop 101 (⟨116558424897297172364881964651759895258, 24416639491724102653739228594310765271, 69977723981006913322571923819071286596, 103385479706591475208830833322745296132⟩ : kpoint) (⟨109770600967296597964692249037091318854, 22768002225205362311224622263207005509, 151013461076585183301771411947368895709, 155062247681858910116122314200081279681⟩ : kpoint) bpw 1426832085277635649559107958769755042914545589110605975260104278960979986342 0 = _
    rw [show (101 : Nat) = 50 + 51 by norm_num, ladder_loop_append, c4]
    show ladder_loop 51 (⟨138311943299707448172346219128071419375, 20645113121588736873155562336829453051, 78025993591889965469317666478059369402, 165867014588166104347108553944721795180⟩ : kpoint) (⟨99016748238924006527399826159506810923, 148528312499717602937686554230391010587, 67331763751233045340414669982386203144, 15720151510529127575851788327607735916⟩ : kpoint) bpw 1426832085277635649559107958769755042914545589110605975260104278960979986342 0 = _
    rw [show (51 : Nat) = 50 + 1 by norm_num, ladder_loop_append, c5]
    show ladder_loop 1 (⟨134559554073368298504849149363162993653, 83561422580844134079229478643479914173, 73157045625122596482088305871691266859, 45413249093877134048619574715118330157⟩ : kpoint) (⟨75727997730576031374589625589813999792, 69750231720784275959625336425273730643, 133209130976304078809012834189152171997, 121354234709391437931549602982857767491⟩ : kpoint) bpw 1426832085277635649559107958769755042914545589110605975260104278960979986342 1 = _
    exact c6
  have h2 := ladder_250_congr (xUNWRAP bpw) bpw 1426832085277635649559107958769755042914545589110605975260104278960979986342 ((⟨86225030410335984513601380825868840, 53492661954871306275378426445504686664, 57803840602889064331212240600300899144, 56746806064508331911470306626417088613⟩ : kpoint), (⟨119873839010031428244063350556906349434, 72166548491976772611638163722030104327, 46410194911385584115872769523619426118, 1168810090283779310686600073469809599⟩ : kpoint), 0) hl
  have h3 : ladder_base_250 1426832085277635649559107958769755042914545589110605975260104278960979986342 = (ladder_250 (xUNWRAP bpw) bpw 1426832085277635649559107958769755042914545589110605975260104278960979986342).1 := rfl
  rw [h3, h2]
  decide

/-- The biquadratic check accepts the generated signature data. -/
theorem ex_check : check (⟨170054958430058895747173702335058236887, 53492661954871306275378426445504686664, 57803840602889064331212240600300899144, 56746806064508331911470306626417088613⟩ : kpoint) (⟨124928819928087089509449460649947003181, 38452967007765494483347150270634805780, 133479101334075487515043858457842709580, 103872070194137611441717673577908024241⟩ : kpoint) (ck1 [5, 234, 42, 100, 124, 166, 166, 165, 36, 123, 129, 47, 188, 6, 25, 164, 167, 222, 78, 163, 12, 210, 15, 133, 33, 116, 94, 25, 246, 230, 166, 147, 166, 71, 178, 236, 90, 156, 246, 64, 128, 92, 188, 71, 1, 20, 179, 139, 99, 96, 56, 183, 117, 115, 117, 29, 206, 215, 147, 119, 239, 142, 39, 3]) (ck2 [5, 234, 42, 100, 124, 166, 166, 165, 36, 123, 129, 47, 188, 6, 25, 164, 167, 222, 78, 163, 12, 210, 15, 133, 33, 116, 94, 25, 246, 230, 166, 147, 166, 71, 178, 236, 90, 156, 246, 64, 128, 92, 188, 71, 1, 20, 179, 139, 99, 96, 56, 183, 117, 115, 117, 29, 206, 215, 147, 119, 239, 142, 39, 3]) = 0 := by decide

/-- Model validation instance of the sign/verify law: for the all-zero
seed and the message of 32 bytes 0x03, a signature produced by the
(CONF_QDSA_FULL) signer is accepted by `qdsa_verify`. The ladders are
evaluated in 50-iteration chunks through `ladder_loop_append`; every
stage of both pipelines is forced to its concrete value. -/
theorem sign_verify_instance :
    qdsa_verify (qdsa_sign msg0 (qdsa_keypair seed0).1 (qdsa_keypair seed0).2)
      (qdsa_keypair seed0).1 msg0 = 0 := by
  rw [ex_kp]
  show qdsa_verify (qdsa_sign msg0 [88, 117, 78, 153, 204, 98, 249, 167, 57, 161, 121, 248, 235, 168, 38, 236, 189, 220, 62, 154, 133, 197, 96, 168, 60, 202, 47, 228, 213, 64, 239, 246] [46, 35, 91, 170, 98, 185, 67, 140, 86, 88, 50, 77, 160, 198, 247, 55, 153, 63, 160, 171, 236, 31, 201, 84, 138, 109, 138, 45, 207, 190, 9, 174, 161, 195, 159, 5, 123, 63, 137, 245, 70, 98, 39, 222, 163, 25, 61, 54, 133, 237, 76, 109, 118, 151, 172, 75, 223, 56, 90, 44, 37, 22, 18, 110]) [88, 117, 78, 153, 204, 98, 249, 167, 57, 161, 121, 248, 235, 168, 38, 236, 189, 220, 62, 154, 133, 197, 96, 168, 60, 202, 47, 228, 213, 64, 239, 246] msg0 = 0
  rw [ex_sig]
  have he : qdsa_verify [5, 234, 42, 100, 124, 166, 166, 165, 36, 123, 129, 47, 188, 6, 25, 164, 167, 222, 78, 163, 12, 210, 15, 133, 33, 116, 94, 25, 246, 230, 166, 147, 166, 71, 178, 236, 90, 156, 246, 64, 128, 92, 188, 71, 1, 20, 179, 139, 99, 96, 56, 183, 117, 115, 117, 29, 206, 215, 147, 119, 239, 142, 39, 3] [88, 117, 78, 153, 204, 98, 249, 167, 57, 161, 121, 248, 235, 168, 38, 236, 189, 220, 62, 154, 133, 197, 96, 168, 60, 202, 47, 228, 213, 64, 239, 246] msg0 = if (verify_pkDecomp [88, 117, 78, 153, 204, 98, 249, 167, 57, 161, 121, 248, 235, 168, 38, 236, 189, 220, 62, 154, 133, 197, 96, 168, 60, 202, 47, 228, 213, 64, 239, 246]).flag ≠ 0 then 1 else check (verify_sP [5, 234, 42, 100, 124, 166, 166, 165, 36, 123, 129, 47, 188, 6, 25, 164, 167, 222, 78, 163, 12, 210, 15, 133, 33, 116, 94, 25, 246, 230, 166, 147, 166, 71, 178, 236, 90, 156, 246, 64, 128, 92, 188, 71, 1, 20, 179, 139, 99, 96, 56, 183, 117, 115, 117, 29, 206, 215, 147, 119, 239, 142, 39, 3]) (verify_hQ [5, 234, 42, 100, 124, 166, 166, 165, 36, 123, 129, 47, 188, 6, 25, 164, 167, 222, 78, 163, 12, 210, 15, 133, 33, 116, 94, 25, 246, 230, 166, 147, 166, 71, 178, 236, 90, 156, 246, 64, 128, 92, 188, 71, 1, 20, 179, 139, 99, 96, 56, 183, 117, 115, 117, 29, 206, 215, 147, 119, 239, 142, 39, 3] [88, 117, 78, 153, 204, 98, 249, 167, 57, 161, 121, 248, 235, 168, 38, 236, 189, 220, 62, 154, 133, 197, 96, 168, 60, 202, 47, 228, 213, 64, 239, 246] msg0) (ck1 [5, 234, 42, 100, 124, 166, 166, 165, 36, 123, 129, 47, 188, 6, 25, 164, 167, 222, 78, 163, 12, 210, 15, 133, 33, 116, 94, 25, 246, 230, 166, 147, 166, 71, 178, 236, 90, 156, 246, 64, 128, 92, 188, 71, 1, 20, 179, 139, 99, 96, 56, 183, 117, 115, 117, 29, 206, 215, 147, 119, 239, 142, 39, 3]) (ck2 [5, 234, 42, 100, 124, 166, 166, 165, 36, 123, 129, 47, 188, 6, 25, 164, 167, 222, 78, 163, 12, 210, 15, 133, 33, 116, 94, 25, 246, 230, 166, 147, 166, 71, 178, 236, 90, 156, 246, 64, 128, 92, 188, 71, 1, 20, 179, 139, 99, 96, 56, 183, 117, 115, 117, 29, 206, 215, 147, 119, 239, 142, 39, 3]) := rfl
  rw [he, ex_pkdec]
  show (if (0 : Nat) ≠ 0 then 1 else check (verify_sP [5, 234, 42, 100, 124, 166, 166, 165, 36, 123, 129, 47, 188, 6, 25, 164, 167, 222, 78, 163, 12, 210, 15, 133, 33, 116, 94, 25, 246, 230, 166, 147, 166, 71, 178, 236, 90, 156, 246, 64, 128, 92, 188, 71, 1, 20, 179, 139, 99, 96, 56, 183, 117, 115, 117, 29, 206, 215, 147, 119, 239, 142, 39, 3]) (verify_hQ [5, 234, 42, 100, 124, 166, 166, 165, 36, 123, 129, 47, 188, 6, 25, 164, 167, 222, 78, 163, 12, 210, 15, 133, 33, 116, 94, 25, 246, 230, 166, 147, 166, 71, 178, 236, 90, 156, 246, 64, 128, 92, 188, 71, 1, 20, 179, 139, 99, 96, 56, 183, 117, 115, 117, 29, 206, 215, 147, 119, 239, 142, 39, 3] [88, 117, 78, 153, 204, 98, 249, 167, 57, 161, 121, 248, 235, 168, 38, 236, 189, 220, 62, 154, 133, 197, 96, 168, 60, 202, 47, 228, 213, 64, 239, 246] msg0) (ck1 [5, 234, 42, 100, 124, 166, 166, 165, 36, 123, 129, 47, 188, 6, 25, 164, 167, 222, 78, 163, 12, 210, 15, 133, 33, 116, 94, 25, 246, 230, 166, 147, 166, 71, 178, 236, 90, 156, 246, 64, 128, 92, 188, 71, 1, 20, 179, 139, 99, 96, 56, 183, 117, 115, 117, 29, 206, 215, 147, 119, 239, 142, 39, 3]) (ck2 [5, 234, 42, 100, 124, 166, 166, 165, 36, 123, 129, 47, 188, 6, 25, 164, 167, 222, 78, 163, 12, 210, 15, 133, 33, 116, 94, 25, 246, 230, 166, 147, 166, 71, 178, 236, 90, 156, 246, 64, 128, 92, 188, 71, 1, 20, 179, 139, 99, 96, 56, 183, 117, 115, 117, 29, 206, 215, 147, 119, 239, 142, 39, 3])) = 0
  have hne : ¬ ((0 : Nat) ≠ 0) := by decide
  rw [if_neg hne]
  have hsp : verify_sP [5, 234, 42, 100, 124, 166, 166, 165, 36, 123, 129, 47, 188, 6, 25, 164, 167, 222, 78, 163, 12, 210, 15, 133, 33, 116, 94, 25, 246, 230, 166, 147, 166, 71, 178, 236, 90, 156, 246, 64, 128, 92, 188, 71, 1, 20, 179, 139, 99, 96, 56, 183, 117, 115, 117, 29, 206, 215, 147, 119, 239, 142, 39, 3] = (⟨170054958430058895747173702335058236887, 53492661954871306275378426445504686664, 57803840602889064331212240600300899144, 56746806064508331911470306626417088613⟩ : kpoint) := by
    have h1 : verify_sP [5, 234, 42, 100, 124, 166, 166, 165, 36, 123, 129, 47, 188, 6, 25, 164, 167, 222, 78, 163, 12, 210, 15, 133, 33, 116, 94, 25, 246, 230, 166, 147, 166, 71, 178, 236, 90, 156, 246, 64, 128, 92, 188, 71, 1, 20, 179, 139, 99, 96, 56, 183, 117, 115, 117, 29, 206, 215, 147, 119, 239, 142, 39, 3] = ladder_base_250 (verify_s [5, 234, 42, 100, 124, 166, 166, 165, 36, 123, 129, 47, 188, 6, 25, 164, 167, 222, 78, 163, 12, 210, 15, 133, 33, 116, 94, 25, 246, 230, 166, 147, 166, 71, 178, 236, 90, 156, 246, 64, 128, 92, 188, 71, 1, 20, 179, 139, 99, 96, 56, 183, 117, 115, 117, 29, 206, 215, 147, 119, 239, 142, 39, 3]) := rfl
    rw [h1, ex_sv, ex_ladP]
  have hhq : verify_hQ [5, 234, 42, 100, 124, 166, 166, 165, 36, 123, 129, 47, 188, 6, 25, 164, 167, 222, 78, 163, 12, 210, 15, 133, 33, 116, 94, 25, 246, 230, 166, 147, 166, 71, 178, 236, 90, 156, 246, 64, 128, 92, 188, 71, 1, 20, 179, 139, 99, 96, 56, 183, 117, 115, 117, 29, 206, 215, 147, 119, 239, 142, 39, 3] [88, 117, 78, 153, 204, 98, 249, 167, 57, 161, 121, 248, 235, 168, 38, 236, 189, 220, 62, 154, 133, 197, 96, 168, 60, 202, 47, 228, 213, 64, 239, 246] msg0 = (⟨124928819928087089509449460649947003181, 38452967007765494483347150270634805780, 133479101334075487515043858457842709580, 103872070194137611441717673577908024241⟩ : kpoint) := by
    have h2 : verify_hQ [5, 234, 42, 100, 124, 166, 166, 165, 36, 123, 129, 47, 188, 6, 25, 164, 167, 222, 78, 163, 12, 210, 15, 133, 33, 116, 94, 25, 246, 230, 166, 147, 166, 71, 178, 236, 90, 156, 246, 64, 128, 92, 188, 71, 1, 20, 179, 139, 99, 96, 56, 183, 117, 115, 117, 29, 206, 215, 147, 119, 239, 142, 39, 3] [88, 117, 78, 153, 204, 98, 249, 167, 57, 161, 121, 248, 235, 168, 38, 236, 189, 220, 62, 154, 133, 197, 96, 168, 60, 202, 47, 228, 213, 64, 239, 246] msg0 = (ladder_250 (verify_pkDecomp [88, 117, 78, 153, 204, 98, 249, 167, 57, 161, 121, 248, 235, 168, 38, 236, 189, 220, 62, 154, 133, 197, 96, 168, 60, 202, 47, 228, 213, 64, 239, 246]).r (xWRAP (verify_pkDecomp [88, 117, 78, 153, 204, 98, 249, 167, 57, 161, 121, 248, 235, 168, 38, 236, 189, 220, 62, 154, 133, 197, 96, 168, 60, 202, 47, 228, 213, 64, 239, 246]).r) (scalar_get_hrqm ([5, 234, 42, 100, 124, 166, 166, 165, 36, 123, 129, 47, 188, 6, 25, 164, 167, 222, 78, 163, 12, 210, 15, 133, 33, 116, 94, 25, 246, 230, 166, 147, 166, 71, 178, 236, 90, 156, 246, 64, 128, 92, 188, 71, 1, 20, 179, 139, 99, 96, 56, 183, 117, 115, 117, 29, 206, 215, 147, 119, 239, 142, 39, 3].take 32) [88, 117, 78, 153, 204, 98, 249, 167, 57, 161, 121, 248, 235, 168, 38, 236, 189, 220, 62, 154, 133, 197, 96, 168, 60, 202, 47, 228, 213, 64, 239, 246] msg0)).1 := rfl
    rw [h2, ex_pkdec]
    show (ladder_250 (⟨120257569961269848561281610293738622823, 162840983133789890034434637275757931778, 38326951456485697526599241074215151180, 79653942286560197681129384125085110299⟩ : kpoint) (xWRAP (⟨120257569961269848561281610293738622823, 162840983133789890034434637275757931778, 38326951456485697526599241074215151180, 79653942286560197681129384125085110299⟩ : kpoint)) (scalar_get_hrqm ([5, 234, 42, 100, 124, 166, 166, 165, 36, 123, 129, 47, 188, 6, 25, 164, 167, 222, 78, 163, 12, 210, 15, 133, 33, 116, 94, 25, 246, 230, 166, 147, 166, 71, 178, 236, 90, 156, 246, 64, 128, 92, 188, 71, 1, 20, 179, 139, 99, 96, 56, 183, 117, 115, 117, 29, 206, 215, 147, 119, 239, 142, 39, 3].take 32) [88, 117, 78, 153, 204, 98, 249, 167, 57, 161, 121, 248, 235, 168, 38, 236, 189, 220, 62, 154, 133, 197, 96, 168, 60, 202, 47, 228, 213, 64, 239, 246] msg0)).1 = (⟨124928819928087089509449460649947003181, 38452967007765494483347150270634805780, 133479101334075487515043858457842709580, 103872070194137611441717673577908024241⟩ : kpoint)
    have ht : [5, 234, 42, 100, 124, 166, 166, 165, 36, 123, 129, 47, 188, 6, 25, 164, 167, 222, 78, 163, 12, 210, 15, 133, 33, 116, 94, 25, 246, 230, 166, 147, 166, 71, 178, 236, 90, 156, 246, 64, 128, 92, 188, 71, 1, 20, 179, 139, 99, 96, 56, 183, 117, 115, 117, 29, 206, 215, 147, 119, 239, 142, 39, 3].take 32 = [5, 234, 42, 100, 124, 166, 166, 165, 36, 123, 129, 47, 188, 6, 25, 164, 167, 222, 78, 163, 12, 210, 15, 133, 33, 116, 94, 25, 246, 230, 166, 147] := by decide
    rw [ex_wrap, ht, ex_hrqm]
    exact ex_ladQ
  rw [hsp, hhq]
  exact ex_check

/-- Model validation instance of the compression round-trip: on the
concrete keypair point [d-prime]P, `decompress` of `compress` succeeds
and returns a projectively equal point (all six cross products agree). -/
theorem compress_decompress_instance :
    (decompress zeroK zeroK (compress (ladder_base_250 936581784941055849914836647218617137569065323656675540263206137215731392144)).1 (compress (ladder_base_250 936581784941055849914836647218617137569065323656675540263206137215731392144)).2).flag = 0 ∧
    (decompress zeroK zeroK (compress (ladder_base_250 936581784941055849914836647218617137569065323656675540263206137215731392144)).1 (compress (ladder_base_250 936581784941055849914836647218617137569065323656675540263206137215731392144)).2).r.X * (ladder_base_250 936581784941055849914836647218617137569065323656675540263206137215731392144).Y = (decompress zeroK zeroK (compress (ladder_base_250 936581784941055849914836647218617137569065323656675540263206137215731392144)).1 (compress (ladder_base_250 936581784941055849914836647218617137569065323656675540263206137215731392144)).2).r.Y * (ladder_base_250 936581784941055849914836647218617137569065323656675540263206137215731392144).X ∧
    (decompress zeroK zeroK (compress (ladder_base_250 936581784941055849914836647218617137569065323656675540263206137215731392144)).1 (compress (ladder_base_250 936581784941055849914836647218617137569065323656675540263206137215731392144)).2).r.X * (ladder_base_250 936581784941055849914836647218617137569065323656675540263206137215731392144).Z = (decompress zeroK zeroK (compress (ladder_base_250 936581784941055849914836647218617137569065323656675540263206137215731392144)).1 (compress (ladder_base_250 936581784941055849914836647218617137569065323656675540263206137215731392144)).2).r.Z * (ladder_base_250 936581784941055849914836647218617137569065323656675540263206137215731392144).X ∧
    (decompress zeroK zeroK (compress (ladder_base_250 936581784941055849914836647218617137569065323656675540263206137215731392144)).1 (compress (ladder_base_250 936581784941055849914836647218617137569065323656675540263206137215731392144)).2).r.X * (ladder_base_250 936581784941055849914836647218617137569065323656675540263206137215731392144).T = (decompress zeroK zeroK (compress (ladder_base_250 936581784941055849914836647218617137569065323656675540263206137215731392144)).1 (compress (ladder_base_250 936581784941055849914836647218617137569065323656675540263206137215731392144)).2).r.T * (ladder_base_250 936581784941055849914836647218617137569065323656675540263206137215731392144).X ∧
    (decompress zeroK zeroK (compress (ladder_base_250 936581784941055849914836647218617137569065323656675540263206137215731392144)).1 (compress (ladder_base_250 936581784941055849914836647218617137569065323656675540263206137215731392144)).2).r.Y * (ladder_base_250 936581784941055849914836647218617137569065323656675540263206137215731392144).Z = (decompress zeroK zeroK (compress (ladder_base_250 936581784941055849914836647218617137569065323656675540263206137215731392144)).1 (compress (ladder_base_250 936581784941055849914836647218617137569065323656675540263206137215731392144)).2).r.Z * (ladder_base_250 936581784941055849914836647218617137569065323656675540263206137215731392144).Y ∧
    (decompress zeroK zeroK (compress (ladder_base_250 936581784941055849914836647218617137569065323656675540263206137215731392144)).1 (compress (ladder_base_250 936581784941055849914836647218617137569065323656675540263206137215731392144)).2).r.Y * (ladder_base_250 936581784941055849914836647218617137569065323656675540263206137215731392144).T = (decompress zeroK zeroK (compress (ladder_base_250 936581784941055849914836647218617137569065323656675540263206137215731392144)).1 (compress (ladder_base_250 936581784941055849914836647218617137569065323656675540263206137215731392144)).2).r.T * (ladder_base_250 936581784941055849914836647218617137569065323656675540263206137215731392144).Y ∧
    (decompress zeroK zeroK (compress (ladder_base_250 936581784941055849914836647218617137569065323656675540263206137215731392144)).1 (compress (ladder_base_250 936581784941055849914836647218617137569065323656675540263206137215731392144)).2).r.Z * (ladder_base_250 936581784941055849914836647218617137569065323656675540263206137215731392144).T = (decompress zeroK zeroK (compress (ladder_base_250 936581784941055849914836647218617137569065323656675540263206137215731392144)).1 (compress (ladder_base_250 936581784941055849914836647218617137569065323656675540263206137215731392144)).2).r.T * (ladder_base_250 936581784941055849914836647218617137569065323656675540263206137215731392144).Z := by
  rw [ex_ladK, ex_compK1, ex_compK2]
  decide
